import Mathlib

/-
Verification of the adapter/normalization layer of the Webflow and Resend
AI-SDK tool libraries.  The tool execute functions are shallowly embedded:
JavaScript values become the inductive JVal, thrown exceptions become
Except.error values, and the HTTP/SDK transports become oracle functions
supplied as parameters.  Each execute function additionally returns the
list of remote requests it issued, so that call-count properties can be
stated.
-/

set_option maxRecDepth 4000

/-- A JavaScript runtime value as it occurs in the weakly typed API
responses: undefined, null, booleans, numbers, strings, arrays, objects.
Numbers are modelled as integers (all numbers occurring in this code are
ids, counts and pagination offsets). -/
inductive JVal where
  | vUndefined : JVal
  | vNull : JVal
  | vBool : Bool → JVal
  | vNum : Int → JVal
  | vStr : String → JVal
  | vArr : List JVal → JVal
  | vObj : List (String × JVal) → JVal

/-- First-match lookup in an object field list. -/
def jlookup : List (String × JVal) → String → Option JVal
  | [], _ => none
  | (k2, v) :: rest, k => if k2 = k then some v else jlookup rest k

/-- JavaScript property access obj[k]: a missing key reads as undefined.
Property access on a non-object also yields undefined here; the translated
code only reads properties of response objects. -/
def JVal.get (v : JVal) (k : String) : JVal :=
  match v with
  | .vObj fields => (jlookup fields k).getD .vUndefined
  | _ => .vUndefined

/-- JavaScript truthiness. -/
def truthy : JVal → Bool
  | .vUndefined => false
  | .vNull => false
  | .vBool b => b
  | .vNum n => n != 0
  | .vStr s => s != ""
  | .vArr _ => true
  | .vObj _ => true

/-- JavaScript nullish test (null or undefined), the left side of ??. -/
def nullish : JVal → Bool
  | .vUndefined => true
  | .vNull => true
  | _ => false

/-- The ?? operator: the first value unless it is nullish. -/
def nvl (v d : JVal) : JVal := if nullish v then d else v

/-- JavaScript String(v) coercion.  The scalar cases are exact; the
translated code never applies String to an array or object, so those
cases are placeholders. -/
def jstr : JVal → String
  | .vUndefined => "undefined"
  | .vNull => "null"
  | .vBool b => if b then "true" else "false"
  | .vNum n => toString n
  | .vStr s => s
  | .vArr _ => ""
  | .vObj _ => "[object Object]"

/-- String(v ?? d) for a string default d, the ubiquitous
String(x.f ?? "fallback") idiom. -/
def strOr (v : JVal) (d : String) : String := jstr (nvl v (.vStr d))

/-- String(v ?? ""). -/
def strOrEmpty (v : JVal) : String := strOr v ""

/-- The pattern v ? String(v) : undefined. -/
def optStr (v : JVal) : Option String :=
  if truthy v then some (jstr v) else none

/-- JavaScript Number(v) coercion restricted to the values that occur in
pagination objects; a non-numeric string stands in for NaN as 0 (no claim
depends on that corner). -/
def jnum : JVal → Int
  | .vNum n => n
  | .vBool b => if b then 1 else 0
  | .vNull => 0
  | .vStr s => (s.toInt?).getD 0
  | _ => 0

/-- Stands in for the runtime message of the TypeError thrown when .map
is invoked on a value that is neither an array nor replaced by the ?? []
fallback; only its presence in the caught error result matters. -/
def mapTypeErrorMsg : String := "TypeError: map is not a function"

/-- The cast (v as Record[]) ?? [] followed by .map: a nullish value is
replaced by the empty list, an array contributes its elements, and any
other value makes the .map call throw a TypeError that the tool boundary
catches. -/
def asArrT : JVal → Except String (List JVal)
  | .vArr xs => .ok xs
  | .vNull => .ok []
  | .vUndefined => .ok []
  | _ => .error mapTypeErrorMsg

/-- Truthiness of an optional string argument: !x is true when the
argument is omitted or the empty string. -/
def strFalsy : Option String → Bool
  | none => true
  | some s => s == ""

/-- Executable list-prefix test used to express that one string occurs
inside another. -/
def listPrefix : List Char → List Char → Bool
  | [], _ => true
  | _ :: _, [] => false
  | a :: as, b :: bs => decide (a = b) && listPrefix as bs

/-- Executable substring occurrence test on character lists. -/
def hasSubstring : List Char → List Char → Bool
  | [], pat => pat.isEmpty
  | hay@(_ :: rest), pat => listPrefix pat hay || hasSubstring rest pat

/-- Executable substring occurrence test on strings. -/
def containsStr (s pat : String) : Bool := hasSubstring s.data pat.data

-- ── Webflow surface: environment, transport, identifier resolution ────────

/-- Webflow process configuration: the API key environment variable
(none when unset) and the default site id (empty string when unset, the
?? "" in getDefaultSiteId). -/
structure WebflowEnv where
  apiKey : Option String
  defaultSiteId : String

/-- getApiKey succeeds exactly when the key is set and non-empty
(the !apiKey check covers both absence and the empty string). -/
def hasApiKey (env : WebflowEnv) : Bool :=
  match env.apiKey with
  | some k => k != ""
  | none => false

/-- getDefaultSiteId: process.env.WEBFLOW_SITE_ID ?? "". -/
def getDefaultSiteId (env : WebflowEnv) : String := env.defaultSiteId

/-- resolveSiteId: siteId || getDefaultSiteId(), failing when both are
empty. -/
def resolveSiteId (env : WebflowEnv) (siteId : Option String) :
    Except String String :=
  let explicit := siteId.getD ""
  let resolved := if explicit != "" then explicit else getDefaultSiteId env
  if resolved = "" then
    .error "A site ID is required. Either pass a siteId or set the WEBFLOW_SITE_ID environment variable."
  else
    .ok resolved

/-- getStringField: try the snake_case key, then the camelCase key, each
under a truthiness test, coercing the hit to a string; otherwise
undefined.  The identical function is defined in both library surfaces. -/
def getStringField (obj : JVal) (snakeCase camelCase : String) :
    Option String :=
  if truthy (obj.get snakeCase) then some (jstr (obj.get snakeCase))
  else if truthy (obj.get camelCase) then some (jstr (obj.get camelCase))
  else none

inductive Method where
  | get : Method
  | post : Method
  | put : Method
deriving DecidableEq

/-- One remote request as callApi receives it: the HTTP method, the path
under the base URL, the optional JSON body, and the query parameter
entries (an entry with value none is skipped during URL construction;
number values are already coerced by String as callApi does). -/
structure ApiRequest where
  method : Method
  path : String
  body : Option JVal
  params : List (String × Option String)

/-- The remote side of callApi: what the network answers for a request.
Except.error models the ApiError thrown for a non-success status. -/
def WebflowApi := ApiRequest → Except String JVal

/-- callApi with an explicit request trace: the API key is checked first
(throwing without any network traffic when unset), then the request is
issued and its outcome returned together with the singleton trace. -/
def callApiT (env : WebflowEnv) (api : WebflowApi) (req : ApiRequest) :
    Except String JVal × List ApiRequest :=
  if hasApiKey env then (api req, [req])
  else (.error "WEBFLOW_API_KEY environment variable is required", [])

-- ── Webflow surface: listSites ────────────────────────────────────────────

/-- A site custom-domain projection: id and url, each String(x ?? ""). -/
structure DomainInfo where
  id : String
  url : String

/-- Reshape one domain record. -/
def projDomain (d : JVal) : DomainInfo :=
  { id := strOrEmpty (d.get "id"), url := strOrEmpty (d.get "url") }

/-- The normalized site projection built by listSites. -/
structure SiteInfo where
  id : String
  displayName : String
  shortName : String
  lastPublished : Option String
  lastUpdated : Option String
  previewUrl : Option String
  timeZone : Option String
  designerUrl : String
  settingsUrl : String
  customDomains : Option (List DomainInfo)

/-- Reshape one raw site record exactly as the listSites map does:
required strings default via ?? "", timestamps go through getStringField,
previewUrl and timeZone through the truthiness ternary, and customDomains
through the optional-chained map (absent unless the upstream value is an
array). -/
def projSite (raw : JVal) : SiteInfo :=
  { id := strOrEmpty (raw.get "id")
  , displayName := strOrEmpty (raw.get "displayName")
  , shortName := strOrEmpty (raw.get "shortName")
  , lastPublished := getStringField raw "last_published" "lastPublished"
  , lastUpdated := getStringField raw "last_updated" "lastUpdated"
  , previewUrl := optStr (raw.get "previewUrl")
  , timeZone := optStr (raw.get "timeZone")
  , designerUrl := "https://" ++ jstr (raw.get "shortName") ++ ".design.webflow.com"
  , settingsUrl := "https://webflow.com/dashboard/sites/" ++ jstr (raw.get "shortName") ++ "/general"
  , customDomains :=
      match raw.get "customDomains" with
      | .vArr ds => some (ds.map projDomain)
      | _ => none }

structure ListSitesResult where
  sites : List SiteInfo
  count : Nat
  error : Option String

/-- listSites.execute: GET /sites, reshape, catch everything into the
empty-collection error result. -/
def listSitesExec (env : WebflowEnv) (api : WebflowApi) :
    ListSitesResult × List ApiRequest :=
  match callApiT env api ⟨.get, "/sites", none, []⟩ with
  | (.error m, tr) => ({ sites := [], count := 0, error := some m }, tr)
  | (.ok response, tr) =>
    match asArrT (response.get "sites") with
    | .error m => ({ sites := [], count := 0, error := some m }, tr)
    | .ok rawSites =>
      let sites := rawSites.map projSite
      ({ sites := sites, count := sites.length, error := none }, tr)

-- ── Webflow surface: publishSite ──────────────────────────────────────────

structure PublishInput where
  siteId : Option String
  customDomains : Option (List String)
  publishToWebflowSubdomain : Option Bool

structure PublishSiteResult where
  success : Bool
  publishedDomains : Option (List DomainInfo)
  error : Option String

/-- The request body publishSite builds: publishToWebflowSubdomain is
always present (?? false); customDomains is added only when supplied and
non-empty. -/
def publishBody (inp : PublishInput) : JVal :=
  .vObj
    ([("publishToWebflowSubdomain",
       .vBool (inp.publishToWebflowSubdomain.getD false))] ++
     (match inp.customDomains with
      | some ds => if ds.length > 0 then [("customDomains", .vArr (ds.map .vStr))] else []
      | none => []))

/-- publishSite.execute: resolve the site id, POST the body, report the
published domains; every thrown failure becomes success:false with the
message. -/
def publishSiteExec (env : WebflowEnv) (api : WebflowApi)
    (inp : PublishInput) : PublishSiteResult × List ApiRequest :=
  match resolveSiteId env inp.siteId with
  | .error m => ({ success := false, publishedDomains := none, error := some m }, [])
  | .ok rid =>
    match callApiT env api ⟨.post, "/sites/" ++ rid ++ "/publish", some (publishBody inp), []⟩ with
    | (.error m, tr) => ({ success := false, publishedDomains := none, error := some m }, tr)
    | (.ok response, tr) =>
      let domains :=
        match response.get "customDomains" with
        | .vArr ds => some (ds.map projDomain)
        | _ => none
      ({ success := true, publishedDomains := domains, error := none }, tr)

-- ── Webflow surface: paginated list tools ─────────────────────────────────

/-- The pagination echo: numeric limit, offset and total. -/
structure Pagination where
  limit : Int
  offset : Int
  total : Int

/-- The pagination reshape repeated verbatim in every paginated list
tool: absent unless the upstream pagination value is truthy, otherwise
Number(x ?? 0) on each field. -/
def pageEcho (response : JVal) : Option Pagination :=
  if truthy (response.get "pagination") then
    some
      { limit := jnum (nvl ((response.get "pagination").get "limit") (.vNum 0))
      , offset := jnum (nvl ((response.get "pagination").get "offset") (.vNum 0))
      , total := jnum (nvl ((response.get "pagination").get "total") (.vNum 0)) }
  else none

structure SeoInfo where
  title : Option String
  description : Option String

structure PageInfo where
  id : String
  title : String
  slug : String
  archived : Option Bool
  draft : Option Bool
  createdOn : Option String
  lastUpdated : Option String
  publishedPath : Option String
  seo : Option SeoInfo

/-- Reshape one raw page record as the listPages map does. -/
def projPage (page : JVal) : PageInfo :=
  { id := strOrEmpty (page.get "id")
  , title := strOrEmpty (page.get "title")
  , slug := strOrEmpty (page.get "slug")
  , archived := if truthy (page.get "archived") then some (truthy (page.get "archived")) else none
  , draft := if truthy (page.get "draft") then some (truthy (page.get "draft")) else none
  , createdOn := getStringField page "created_on" "createdOn"
  , lastUpdated := getStringField page "last_updated" "lastUpdated"
  , publishedPath := optStr (page.get "publishedPath")
  , seo :=
      if truthy (page.get "seo") then
        some
          { title := optStr ((page.get "seo").get "title")
          , description := optStr ((page.get "seo").get "description") }
      else none }

structure ListPagesInput where
  siteId : Option String
  limit : Option Int
  offset : Option Int

structure ListPagesResult where
  pages : List PageInfo
  count : Nat
  pagination : Option Pagination
  error : Option String

/-- listPages.execute. -/
def listPagesExec (env : WebflowEnv) (api : WebflowApi)
    (inp : ListPagesInput) : ListPagesResult × List ApiRequest :=
  match resolveSiteId env inp.siteId with
  | .error m => ({ pages := [], count := 0, pagination := none, error := some m }, [])
  | .ok rid =>
    match callApiT env api
        ⟨.get, "/sites/" ++ rid ++ "/pages", none,
         [("limit", inp.limit.map toString), ("offset", inp.offset.map toString)]⟩ with
    | (.error m, tr) => ({ pages := [], count := 0, pagination := none, error := some m }, tr)
    | (.ok response, tr) =>
      match asArrT (response.get "pages") with
      | .error m => ({ pages := [], count := 0, pagination := none, error := some m }, tr)
      | .ok rawPages =>
        let pages := rawPages.map projPage
        ({ pages := pages, count := pages.length
         , pagination := pageEcho response, error := none }, tr)

structure FieldInfo where
  displayName : Option String
  type : Option String

/-- parseFormFields: absent for a falsy raw value, otherwise each entry
reshaped with truthiness ternaries; an empty collection also yields
absent. -/
def parseFormFields (rawFields : JVal) : Option (List (String × FieldInfo)) :=
  match rawFields with
  | .vObj entries =>
    let fields := entries.map (fun e =>
      (e.1, FieldInfo.mk (optStr (e.2.get "displayName")) (optStr (e.2.get "type"))))
    if fields.length > 0 then some fields else none
  | _ => none

structure FormInfo where
  id : String
  displayName : String
  pageId : Option String
  pageName : Option String
  formElementId : Option String
  fields : Option (List (String × FieldInfo))
  createdOn : Option String
  lastUpdated : Option String

/-- Reshape one raw form record as the listForms map does. -/
def projForm (form : JVal) : FormInfo :=
  { id := strOrEmpty (form.get "id")
  , displayName := strOrEmpty (form.get "displayName")
  , pageId := optStr (form.get "pageId")
  , pageName := optStr (form.get "pageName")
  , formElementId := getStringField form "form_element_id" "formElementId"
  , fields := parseFormFields (form.get "fields")
  , createdOn := getStringField form "created_on" "createdOn"
  , lastUpdated := getStringField form "last_updated" "lastUpdated" }

structure ListFormsInput where
  siteId : Option String
  limit : Option Int
  offset : Option Int

structure ListFormsResult where
  forms : List FormInfo
  count : Nat
  pagination : Option Pagination
  error : Option String

/-- listForms.execute. -/
def listFormsExec (env : WebflowEnv) (api : WebflowApi)
    (inp : ListFormsInput) : ListFormsResult × List ApiRequest :=
  match resolveSiteId env inp.siteId with
  | .error m => ({ forms := [], count := 0, pagination := none, error := some m }, [])
  | .ok rid =>
    match callApiT env api
        ⟨.get, "/sites/" ++ rid ++ "/forms", none,
         [("limit", inp.limit.map toString), ("offset", inp.offset.map toString)]⟩ with
    | (.error m, tr) => ({ forms := [], count := 0, pagination := none, error := some m }, tr)
    | (.ok response, tr) =>
      match asArrT (response.get "forms") with
      | .error m => ({ forms := [], count := 0, pagination := none, error := some m }, tr)
      | .ok rawForms =>
        let forms := rawForms.map projForm
        ({ forms := forms, count := forms.length
         , pagination := pageEcho response, error := none }, tr)

structure SubmissionInfo where
  id : String
  displayName : Option String
  dateSubmitted : Option String
  formResponse : Option JVal

/-- Reshape one raw form submission as the listFormSubmissions map does;
the schema-optional formResponse is always set, falling back to the
empty object via ?? {}. -/
def projSubmission (s : JVal) : SubmissionInfo :=
  { id := strOrEmpty (s.get "id")
  , displayName := optStr (s.get "displayName")
  , dateSubmitted := getStringField s "date_submitted" "dateSubmitted"
  , formResponse := some (nvl (s.get "formResponse") (.vObj [])) }

structure ListSubmissionsInput where
  siteId : Option String
  elementId : Option String
  limit : Option Int
  offset : Option Int

structure ListSubmissionsResult where
  formSubmissions : List SubmissionInfo
  count : Nat
  pagination : Option Pagination
  error : Option String

/-- listFormSubmissions.execute. -/
def listFormSubmissionsExec (env : WebflowEnv) (api : WebflowApi)
    (inp : ListSubmissionsInput) : ListSubmissionsResult × List ApiRequest :=
  match resolveSiteId env inp.siteId with
  | .error m => ({ formSubmissions := [], count := 0, pagination := none, error := some m }, [])
  | .ok rid =>
    match callApiT env api
        ⟨.get, "/sites/" ++ rid ++ "/form_submissions", none,
         [("elementId", inp.elementId), ("limit", inp.limit.map toString),
          ("offset", inp.offset.map toString)]⟩ with
    | (.error m, tr) => ({ formSubmissions := [], count := 0, pagination := none, error := some m }, tr)
    | (.ok response, tr) =>
      match asArrT (response.get "formSubmissions") with
      | .error m =>
        ({ formSubmissions := [], count := 0, pagination := none, error := some m }, tr)
      | .ok rawSubmissions =>
        let subs := rawSubmissions.map projSubmission
        ({ formSubmissions := subs, count := subs.length
         , pagination := pageEcho response, error := none }, tr)

structure ScriptInfo where
  id : String
  location : String
  version : String

structure BlockInfo where
  siteId : String
  pageId : Option String
  type : Option String
  scripts : List ScriptInfo
  createdOn : Option String
  lastUpdated : Option String

/-- Reshape one script entry of a custom-code block. -/
def projScript (script : JVal) : ScriptInfo :=
  { id := strOrEmpty (script.get "id")
  , location := strOrEmpty (script.get "location")
  , version := strOrEmpty (script.get "version") }

/-- Reshape one raw custom-code block as the listCustomCode map does; the
scripts cast-and-map throws on a non-array non-nullish value, aborting
the whole reshape into the caught error. -/
def projBlockT (block : JVal) : Except String BlockInfo :=
  match asArrT (block.get "scripts") with
  | .error m => .error m
  | .ok rawScripts =>
    .ok { siteId := strOrEmpty (block.get "siteId")
        , pageId := optStr (block.get "pageId")
        , type := optStr (block.get "type")
        , scripts := rawScripts.map projScript
        , createdOn := getStringField block "created_on" "createdOn"
        , lastUpdated := getStringField block "last_updated" "lastUpdated" }

structure ListCustomCodeInput where
  siteId : Option String
  limit : Option Int
  offset : Option Int

structure ListCustomCodeResult where
  blocks : List BlockInfo
  count : Nat
  pagination : Option Pagination
  error : Option String

/-- listCustomCode.execute. -/
def listCustomCodeExec (env : WebflowEnv) (api : WebflowApi)
    (inp : ListCustomCodeInput) : ListCustomCodeResult × List ApiRequest :=
  match resolveSiteId env inp.siteId with
  | .error m => ({ blocks := [], count := 0, pagination := none, error := some m }, [])
  | .ok rid =>
    match callApiT env api
        ⟨.get, "/sites/" ++ rid ++ "/custom_code/blocks", none,
         [("limit", inp.limit.map toString), ("offset", inp.offset.map toString)]⟩ with
    | (.error m, tr) => ({ blocks := [], count := 0, pagination := none, error := some m }, tr)
    | (.ok response, tr) =>
      match asArrT (response.get "blocks") with
      | .error m => ({ blocks := [], count := 0, pagination := none, error := some m }, tr)
      | .ok rawBlocks =>
        match rawBlocks.mapM projBlockT with
        | .error m => ({ blocks := [], count := 0, pagination := none, error := some m }, tr)
        | .ok blocks =>
          ({ blocks := blocks, count := blocks.length
           , pagination := pageEcho response, error := none }, tr)

-- ── Webflow surface: addCustomCode ────────────────────────────────────────

inductive CodeTarget where
  | site : CodeTarget
  | page : CodeTarget
deriving DecidableEq

inductive CodeLocation where
  | header : CodeLocation
  | footer : CodeLocation
deriving DecidableEq

def CodeLocation.str : CodeLocation → String
  | .header => "header"
  | .footer => "footer"

structure AddCodeInput where
  siteId : Option String
  target : CodeTarget
  pageId : Option String
  sourceCode : String
  displayName : String
  version : String
  location : CodeLocation

structure AddCodeResult where
  success : Bool
  scriptId : String
  appliedTo : Option String
  error : Option String

/-- The error result for a missing page id. -/
def pageIdMissingMsg : String :=
  "A pageId is required when target is \"page\". Use listPages to find page IDs."

/-- The error result for an oversized script. -/
def oversizeMsg (n : Nat) : String :=
  "Script exceeds the 2000 character limit (" ++ toString n ++
    " characters). Consider hosting the script externally."

/-- The body of the registration POST. -/
def registerBody (inp : AddCodeInput) : JVal :=
  .vObj [("sourceCode", .vStr inp.sourceCode), ("version", .vStr inp.version),
         ("displayName", .vStr inp.displayName)]

/-- The registration request for a resolved site id. -/
def registerReq (rid : String) (inp : AddCodeInput) : ApiRequest :=
  ⟨.post, "/sites/" ++ rid ++ "/registered_scripts/inline", some (registerBody inp), []⟩

/-- The payload of the apply PUT: scripts: [ id, location, version ]. -/
def applyPayload (scriptId : String) (inp : AddCodeInput) : JVal :=
  .vObj [("scripts", .vArr
    [.vObj [("id", .vStr scriptId), ("location", .vStr inp.location.str),
            ("version", .vStr inp.version)]])]

/-- The apply request: page-scoped when target is page and the pageId is
truthy, site-scoped otherwise. -/
def applyReq (rid scriptId : String) (inp : AddCodeInput) : ApiRequest :=
  if inp.target = .page ∧ strFalsy inp.pageId = false then
    ⟨.put, "/pages/" ++ inp.pageId.getD "" ++ "/custom_code",
     some (applyPayload scriptId inp), []⟩
  else
    ⟨.put, "/sites/" ++ rid ++ "/custom_code",
     some (applyPayload scriptId inp), []⟩

/-- addCustomCode.execute: validate (page id, then the 2000-character
limit), resolve the site id, register the inline script, extract the id
with String(registered.id ?? ""), bail out when it is empty, then apply
to the page or site and report; every thrown failure is caught into
success:false with the message. -/
def addCustomCodeExec (env : WebflowEnv) (api : WebflowApi)
    (inp : AddCodeInput) : AddCodeResult × List ApiRequest :=
  if inp.target = .page ∧ strFalsy inp.pageId then
    ({ success := false, scriptId := "", appliedTo := none,
       error := some pageIdMissingMsg }, [])
  else if inp.sourceCode.length > 2000 then
    ({ success := false, scriptId := "", appliedTo := none,
       error := some (oversizeMsg inp.sourceCode.length) }, [])
  else
    match resolveSiteId env inp.siteId with
    | .error m =>
      ({ success := false, scriptId := "", appliedTo := none, error := some m }, [])
    | .ok rid =>
      match callApiT env api (registerReq rid inp) with
      | (.error m, tr) =>
        ({ success := false, scriptId := "", appliedTo := none, error := some m }, tr)
      | (.ok registered, tr) =>
        let scriptId := strOrEmpty (registered.get "id")
        if scriptId = "" then
          ({ success := false, scriptId := "", appliedTo := none,
             error := some "Failed to register script: no script ID returned" }, tr)
        else
          match callApiT env api (applyReq rid scriptId inp) with
          | (.error m, tr2) =>
            ({ success := false, scriptId := "", appliedTo := none,
               error := some m }, tr ++ tr2)
          | (.ok _, tr2) =>
            ({ success := true, scriptId := scriptId
             , appliedTo := some (if inp.target = .page
                 then "page:" ++ inp.pageId.getD ""
                 else "site:" ++ rid)
             , error := none }, tr ++ tr2)

-- ── Resend surface: environment and SDK oracle ────────────────────────────

/-- Resend process configuration: the API key (none when unset). -/
structure ResendEnv where
  apiKey : Option String

/-- getClient succeeds exactly when the key is set and non-empty. -/
def hasResendKey (env : ResendEnv) : Bool :=
  match env.apiKey with
  | some k => k != ""
  | none => false

/-- What one vendor-SDK call returns when it does not throw: the data
payload and the structured error, of which the SDK supplies exactly one
in practice. -/
structure SdkResp where
  data : Option JVal
  error : Option String

/-- The vendor SDK surface used by the tools: each method either throws
(Except.error with the message) or returns an SdkResp. -/
structure ResendApi where
  emailsSend : JVal → Except String SdkResp
  batchSend : JVal → Except String SdkResp
  emailsGet : String → Except String SdkResp
  emailsList : Except String SdkResp
  contactsCreate : JVal → Except String SdkResp
  contactsList : Except String SdkResp
  contactsRemove : JVal → Except String SdkResp
  templatesList : JVal → Except String SdkResp
  templatesGet : String → Except String SdkResp

/-- The message of the getClient failure. -/
def resendKeyMsg : String := "RESEND_API_KEY environment variable is required"

/-- Stands in for the runtime message of the TypeError thrown when the
code reads a property of an undefined data payload; only its presence in
the caught error result matters. -/
def typeErrorMsg : String := "TypeError: cannot read properties of undefined"

/-- Conditionally included object field, the
if (x !== undefined) params.x = x pattern. -/
def optField (k : String) (v : Option JVal) : List (String × JVal) :=
  match v with
  | some x => [(k, x)]
  | none => []

/-- toStringArray: keep an array (elements are strings upstream, on which
jstr is the identity), wrap a lone string, anything else becomes []. -/
def toStringArray (v : JVal) : List String :=
  match v with
  | .vArr xs => xs.map jstr
  | .vStr s => [s]
  | _ => []

/-- The pattern (data)?.data ?? [] followed by .map used by the Resend
list tools: a missing payload or a nullish data field yields the empty
list, an array contributes its elements, and any other data field makes
the .map call throw the caught TypeError. -/
def sdkListData (data : Option JVal) : Except String (List JVal) :=
  match data with
  | some d => asArrT (d.get "data")
  | none => .ok []

-- ── Resend surface: sendEmail ─────────────────────────────────────────────

structure SendEmailInput where
  from' : String
  to' : List String
  subject : String
  html : Option String
  text : Option String
  replyTo : Option JVal
  cc : Option (List String)
  bcc : Option (List String)
  scheduledAt : Option String
  tags : Option (List (String × String))
  attachments : Option JVal
  template : Option JVal
  topicId : Option String

/-- The params object sendEmail builds: from, to and subject always, the
optional inputs only when defined; tags entries are name/value objects,
attachments and template are forwarded verbatim. -/
def sendEmailParams (inp : SendEmailInput) : JVal :=
  .vObj
    ([("from", .vStr inp.from'), ("to", .vArr (inp.to'.map .vStr)),
      ("subject", .vStr inp.subject)] ++
     optField "html" (inp.html.map .vStr) ++
     optField "text" (inp.text.map .vStr) ++
     optField "replyTo" inp.replyTo ++
     optField "cc" (inp.cc.map (fun xs => .vArr (xs.map .vStr))) ++
     optField "bcc" (inp.bcc.map (fun xs => .vArr (xs.map .vStr))) ++
     optField "scheduledAt" (inp.scheduledAt.map .vStr) ++
     optField "tags" (inp.tags.map (fun ts => .vArr (ts.map (fun t =>
       .vObj [("name", .vStr t.1), ("value", .vStr t.2)])))) ++
     optField "attachments" inp.attachments ++
     optField "template" inp.template ++
     optField "topicId" (inp.topicId.map .vStr))

structure SendResult where
  success : Bool
  id : String
  error : Option String

/-- sendEmail.execute: construct the client, send, map the structured
error or the thrown error to success:false, otherwise report
data?.id ?? "". -/
def sendEmailExec (env : ResendEnv) (api : ResendApi)
    (inp : SendEmailInput) : SendResult :=
  if hasResendKey env then
    match api.emailsSend (sendEmailParams inp) with
    | .error m => { success := false, id := "", error := some m }
    | .ok resp =>
      match resp.error with
      | some m => { success := false, id := "", error := some m }
      | none =>
        let idv := match resp.data with
          | some d => d.get "id"
          | none => .vUndefined
        { success := true, id := if nullish idv then "" else jstr idv, error := none }
  else { success := false, id := "", error := some resendKeyMsg }

-- ── Resend surface: sendBatchEmails ───────────────────────────────────────

structure BatchSendResult where
  success : Bool
  ids : List String
  count : Nat
  error : Option String

/-- sendBatchEmails.execute: the input array is forwarded to the SDK
unmodified; on success the ids come from (data)?.data ?? [] (ids are
strings upstream, on which jstr is the identity). -/
def sendBatchEmailsExec (env : ResendEnv) (api : ResendApi)
    (emails : List JVal) : BatchSendResult :=
  if hasResendKey env then
    match api.batchSend (.vArr emails) with
    | .error m => { success := false, ids := [], count := 0, error := some m }
    | .ok resp =>
      match resp.error with
      | some m => { success := false, ids := [], count := 0, error := some m }
      | none =>
        match sdkListData resp.data with
        | .error m => { success := false, ids := [], count := 0, error := some m }
        | .ok results =>
          let ids := results.map (fun r => jstr (r.get "id"))
          { success := true, ids := ids, count := ids.length, error := none }
  else { success := false, ids := [], count := 0, error := some resendKeyMsg }

-- ── Resend surface: getEmail ──────────────────────────────────────────────

/-- The getEmail success record: every field beside success and id is
optional in the declared output schema. -/
structure GetEmailResult where
  success : Bool
  id : String
  from' : Option String
  to' : Option (List String)
  subject : Option String
  lastEvent : Option String
  createdAt : Option String
  error : Option String

/-- getEmail.execute: error paths carry the caller-supplied id; the
success reshape defaults every field, including the schema-optional ones,
with ?? "" fallbacks.  A missing data payload is the caught TypeError
from reading its properties. -/
def getEmailExec (env : ResendEnv) (api : ResendApi) (emailId : String) :
    GetEmailResult :=
  if hasResendKey env then
    match api.emailsGet emailId with
    | .error m =>
      { success := false, id := emailId, from' := none, to' := none,
        subject := none, lastEvent := none, createdAt := none, error := some m }
    | .ok resp =>
      match resp.error with
      | some m =>
        { success := false, id := emailId, from' := none, to' := none,
          subject := none, lastEvent := none, createdAt := none, error := some m }
      | none =>
        match resp.data with
        | some email =>
          { success := true
          , id := strOr (email.get "id") emailId
          , from' := some (strOrEmpty (email.get "from"))
          , to' := some (toStringArray (email.get "to"))
          , subject := some (strOrEmpty (email.get "subject"))
          , lastEvent := some ((getStringField email "last_event" "lastEvent").getD "")
          , createdAt := some ((getStringField email "created_at" "createdAt").getD "")
          , error := none }
        | none =>
          { success := false, id := emailId, from' := none, to' := none,
            subject := none, lastEvent := none, createdAt := none,
            error := some typeErrorMsg }
  else
    { success := false, id := emailId, from' := none, to' := none,
      subject := none, lastEvent := none, createdAt := none,
      error := some resendKeyMsg }

-- ── Resend surface: listEmails ────────────────────────────────────────────

structure EmailInfo where
  id : String
  from' : String
  to' : List String
  subject : String
  lastEvent : Option String
  createdAt : Option String

/-- Reshape one sent-email record as the listEmails map does; the
schema-optional lastEvent and createdAt are always set via ?? "". -/
def projEmail (email : JVal) : EmailInfo :=
  { id := strOrEmpty (email.get "id")
  , from' := strOrEmpty (email.get "from")
  , to' := toStringArray (email.get "to")
  , subject := strOrEmpty (email.get "subject")
  , lastEvent := some ((getStringField email "last_event" "lastEvent").getD "")
  , createdAt := some ((getStringField email "created_at" "createdAt").getD "") }

structure ListEmailsResult where
  emails : List EmailInfo
  count : Nat
  error : Option String

/-- listEmails.execute: the records come from (data)?.data ?? []. -/
def listEmailsExec (env : ResendEnv) (api : ResendApi) : ListEmailsResult :=
  if hasResendKey env then
    match api.emailsList with
    | .error m => { emails := [], count := 0, error := some m }
    | .ok resp =>
      match resp.error with
      | some m => { emails := [], count := 0, error := some m }
      | none =>
        match sdkListData resp.data with
        | .error m => { emails := [], count := 0, error := some m }
        | .ok rawEmails =>
          let emails := rawEmails.map projEmail
          { emails := emails, count := emails.length, error := none }
  else { emails := [], count := 0, error := some resendKeyMsg }

-- ── Resend surface: createContact ─────────────────────────────────────────

structure CreateContactInput where
  email : String
  firstName : Option String
  lastName : Option String
  unsubscribed : Option Bool
  properties : Option JVal
  segments : Option (List String)
  topics : Option JVal

/-- The params object createContact builds: email always, the optional
inputs only when defined; segments entries are wrapped as id objects. -/
def createContactParams (inp : CreateContactInput) : JVal :=
  .vObj
    ([("email", .vStr inp.email)] ++
     optField "firstName" (inp.firstName.map .vStr) ++
     optField "lastName" (inp.lastName.map .vStr) ++
     optField "unsubscribed" (inp.unsubscribed.map .vBool) ++
     optField "properties" inp.properties ++
     optField "segments" (inp.segments.map (fun ss =>
       .vArr (ss.map (fun i => .vObj [("id", .vStr i)])))) ++
     optField "topics" inp.topics)

structure CreateContactResult where
  success : Bool
  id : String
  error : Option String

/-- createContact.execute. -/
def createContactExec (env : ResendEnv) (api : ResendApi)
    (inp : CreateContactInput) : CreateContactResult :=
  if hasResendKey env then
    match api.contactsCreate (createContactParams inp) with
    | .error m => { success := false, id := "", error := some m }
    | .ok resp =>
      match resp.error with
      | some m => { success := false, id := "", error := some m }
      | none =>
        match resp.data with
        | some result =>
          { success := true, id := strOrEmpty (result.get "id"), error := none }
        | none => { success := false, id := "", error := some typeErrorMsg }
  else { success := false, id := "", error := some resendKeyMsg }

-- ── Resend surface: listContacts ──────────────────────────────────────────

structure ContactInfo where
  id : String
  email : String
  firstName : Option String
  lastName : Option String
  unsubscribed : Bool

/-- Reshape one contact record as the listContacts map does;
unsubscribed is Boolean(x ?? false). -/
def projContact (contact : JVal) : ContactInfo :=
  { id := strOrEmpty (contact.get "id")
  , email := strOrEmpty (contact.get "email")
  , firstName := getStringField contact "first_name" "firstName"
  , lastName := getStringField contact "last_name" "lastName"
  , unsubscribed := truthy (nvl (contact.get "unsubscribed") (.vBool false)) }

structure ListContactsResult where
  contacts : List ContactInfo
  count : Nat
  error : Option String

/-- listContacts.execute. -/
def listContactsExec (env : ResendEnv) (api : ResendApi) : ListContactsResult :=
  if hasResendKey env then
    match api.contactsList with
    | .error m => { contacts := [], count := 0, error := some m }
    | .ok resp =>
      match resp.error with
      | some m => { contacts := [], count := 0, error := some m }
      | none =>
        match sdkListData resp.data with
        | .error m => { contacts := [], count := 0, error := some m }
        | .ok rawContacts =>
          let contacts := rawContacts.map projContact
          { contacts := contacts, count := contacts.length, error := none }
  else { contacts := [], count := 0, error := some resendKeyMsg }

-- ── Resend surface: removeContact ─────────────────────────────────────────

structure RemoveContactResult where
  success : Bool
  deleted : Bool
  id : String
  error : Option String

/-- removeContact.execute: the lookup key (id or email address) is sent
as an id object; on failure deleted is false and the key is echoed; on
success deleted is Boolean(result.deleted ?? true) and the id is
String(result.id ?? key). -/
def removeContactExec (env : ResendEnv) (api : ResendApi) (id : String) :
    RemoveContactResult :=
  if hasResendKey env then
    match api.contactsRemove (.vObj [("id", .vStr id)]) with
    | .error m => { success := false, deleted := false, id := id, error := some m }
    | .ok resp =>
      match resp.error with
      | some m => { success := false, deleted := false, id := id, error := some m }
      | none =>
        match resp.data with
        | some result =>
          { success := true
          , deleted := truthy (nvl (result.get "deleted") (.vBool true))
          , id := strOr (result.get "id") id
          , error := none }
        | none =>
          { success := false, deleted := false, id := id, error := some typeErrorMsg }
  else { success := false, deleted := false, id := id, error := some resendKeyMsg }

-- ── Resend surface: listTemplates ─────────────────────────────────────────

structure TemplateInfo where
  id : String
  name : String
  alias' : Option String
  status : String
  createdAt : Option String
  updatedAt : Option String
  publishedAt : Option String

/-- Reshape one template record as the listTemplates map does. -/
def projTemplate (tmpl : JVal) : TemplateInfo :=
  { id := strOrEmpty (tmpl.get "id")
  , name := strOrEmpty (tmpl.get "name")
  , alias' := optStr (tmpl.get "alias")
  , status := strOrEmpty (tmpl.get "status")
  , createdAt := getStringField tmpl "created_at" "createdAt"
  , updatedAt := getStringField tmpl "updated_at" "updatedAt"
  , publishedAt := getStringField tmpl "published_at" "publishedAt" }

structure ListTemplatesInput where
  limit : Option Int
  after : Option String
  before : Option String

/-- The params object listTemplates builds. -/
def listTemplatesParams (inp : ListTemplatesInput) : JVal :=
  .vObj
    (optField "limit" (inp.limit.map .vNum) ++
     optField "after" (inp.after.map .vStr) ++
     optField "before" (inp.before.map .vStr))

structure ListTemplatesResult where
  templates : List TemplateInfo
  count : Nat
  hasMore : Option Bool
  error : Option String

/-- listTemplates.execute: a missing data payload is the caught
TypeError from reading its data property; hasMore is
Boolean(result.has_more ?? false) and always set. -/
def listTemplatesExec (env : ResendEnv) (api : ResendApi)
    (inp : ListTemplatesInput) : ListTemplatesResult :=
  if hasResendKey env then
    match api.templatesList (listTemplatesParams inp) with
    | .error m => { templates := [], count := 0, hasMore := none, error := some m }
    | .ok resp =>
      match resp.error with
      | some m => { templates := [], count := 0, hasMore := none, error := some m }
      | none =>
        match resp.data with
        | some result =>
          match asArrT (result.get "data") with
          | .error m => { templates := [], count := 0, hasMore := none, error := some m }
          | .ok rawTemplates =>
            let templates := rawTemplates.map projTemplate
            { templates := templates, count := templates.length
            , hasMore := some (truthy (nvl (result.get "has_more") (.vBool false)))
            , error := none }
        | none =>
          { templates := [], count := 0, hasMore := none, error := some typeErrorMsg }
  else { templates := [], count := 0, hasMore := none, error := some resendKeyMsg }

-- ── Resend surface: getTemplate ───────────────────────────────────────────

structure TemplateVariable where
  id : String
  key : String
  type : String
  fallbackValue : Option String

/-- Reshape one template variable: type defaults to the string literal
string via ?? "string". -/
def projVariable (v : JVal) : TemplateVariable :=
  { id := strOrEmpty (v.get "id")
  , key := strOrEmpty (v.get "key")
  , type := strOr (v.get "type") "string"
  , fallbackValue := getStringField v "fallback_value" "fallbackValue" }

structure GetTemplateResult where
  success : Bool
  id : String
  name : Option String
  alias' : Option String
  status : Option String
  from' : Option String
  subject : Option String
  replyTo : Option String
  variables' : Option (List TemplateVariable)
  createdAt : Option String
  updatedAt : Option String
  publishedAt : Option String
  error : Option String

/-- getTemplate.execute. -/
def getTemplateExec (env : ResendEnv) (api : ResendApi) (id : String) :
    GetTemplateResult :=
  if hasResendKey env then
    match api.templatesGet id with
    | .error m =>
      { success := false, id := id, name := none, alias' := none, status := none,
        from' := none, subject := none, replyTo := none, variables' := none,
        createdAt := none, updatedAt := none, publishedAt := none, error := some m }
    | .ok resp =>
      match resp.error with
      | some m =>
        { success := false, id := id, name := none, alias' := none, status := none,
          from' := none, subject := none, replyTo := none, variables' := none,
          createdAt := none, updatedAt := none, publishedAt := none, error := some m }
      | none =>
        match resp.data with
        | some result =>
          { success := true
          , id := strOr (result.get "id") id
          , name := optStr (result.get "name")
          , alias' := optStr (result.get "alias")
          , status := optStr (result.get "status")
          , from' := optStr (result.get "from")
          , subject := optStr (result.get "subject")
          , replyTo := getStringField result "reply_to" "replyTo"
          , variables' :=
              match result.get "variables" with
              | .vArr vs => some (vs.map projVariable)
              | _ => none
          , createdAt := getStringField result "created_at" "createdAt"
          , updatedAt := getStringField result "updated_at" "updatedAt"
          , publishedAt := getStringField result "published_at" "publishedAt"
          , error := none }
        | none =>
          { success := false, id := id, name := none, alias' := none, status := none,
            from' := none, subject := none, replyTo := none, variables' := none,
            createdAt := none, updatedAt := none, publishedAt := none,
            error := some typeErrorMsg }
  else
    { success := false, id := id, name := none, alias' := none, status := none,
      from' := none, subject := none, replyTo := none, variables' := none,
      createdAt := none, updatedAt := none, publishedAt := none,
      error := some resendKeyMsg }

-- ── Concrete instances used by witnesses and counterexamples ──────────────

/-- A Webflow environment with a key and a configured default site. -/
def wfEnv0 : WebflowEnv := ⟨some "key", "site-0"⟩

/-- A Webflow oracle answering every request with the same JSON value. -/
def wfApiConst (v : JVal) : WebflowApi := fun _ => .ok v

/-- A Resend environment with a key. -/
def rsEnv0 : ResendEnv := ⟨some "key"⟩

/-- A Resend oracle answering every SDK call with the same outcome. -/
def rsApiConst (r : Except String SdkResp) : ResendApi :=
  { emailsSend := fun _ => r, batchSend := fun _ => r, emailsGet := fun _ => r
  , emailsList := r, contactsCreate := fun _ => r, contactsList := r
  , contactsRemove := fun _ => r, templatesList := fun _ => r
  , templatesGet := fun _ => r }

/-- The oversized page-targeted addCustomCode input of the C2 analysis:
target page, no pageId, 2001 characters of source. -/
def c2BadInput : AddCodeInput :=
  ⟨none, .page, none, String.mk (List.replicate 2001 'a'), "Script", "1.0.0", .header⟩

/-- The publish input of the C3 witness: explicit site, one custom
domain, publishToWebflowSubdomain omitted. -/
def c3Inp : PublishInput := ⟨some "s1", some ["d1"], none⟩

/-- The request publishSite issues for c3Inp. -/
def c3Req : ApiRequest :=
  ⟨.post, "/sites/" ++ "s1" ++ "/publish", some (publishBody c3Inp), []⟩

/-- A site-targeted addCustomCode input used by witnesses. -/
def cSiteInp : AddCodeInput :=
  ⟨some "s1", .site, none, "console.log(1);", "Hello Script", "1.0.0", .footer⟩

/-- A page-targeted addCustomCode input used by witnesses. -/
def cPageInp : AddCodeInput :=
  ⟨some "s1", .page, some "p1", "console.log(1);", "Hello Script", "1.0.0", .header⟩

/-- A register response carrying a script id. -/
def regRespWithId : JVal := .vObj [("id", .vStr "script-123")]

/-- An upstream response carrying a pagination object. -/
def pagResp : JVal :=
  .vObj [("pagination",
    .vObj [("limit", .vNum 10), ("offset", .vNum 0), ("total", .vNum 25)])]

/-- An upstream removeContact success record. -/
def c10Data : JVal := .vObj [("deleted", .vBool true), ("id", .vStr "c1")]

-- ── Theorems ──────────────────────────────────────────────────────────────

theorem listPrefix_self_append (p rest : List Char) :
    listPrefix p (p ++ rest) = true := by
  induction p with
  | nil => rfl
  | cons a as ih => simp [listPrefix, ih]

theorem hasSubstring_middle (a t b : List Char) :
    hasSubstring (a ++ (t ++ b)) t = true := by
  induction a with
  | nil =>
    cases t with
    | nil =>
      cases b with
      | nil => rfl
      | cons c rest =>
        simp [hasSubstring, listPrefix]
    | cons c ts =>
      simp only [List.nil_append, hasSubstring, Bool.or_eq_true]
      left
      have h := listPrefix_self_append (c :: ts) b
      simpa using h
  | cons c as ih =>
    simp [hasSubstring]
    right
    exact ih

theorem containsStr_middle (a t b : String) :
    containsStr (a ++ (t ++ b)) t = true := by
  cases a with
  | mk da =>
    cases t with
    | mk dt =>
      cases b with
      | mk db =>
        show hasSubstring (da ++ (dt ++ db)) dt = true
        exact hasSubstring_middle da dt db

/-- C4: the field normalizer returns the stringified value at the
snake_case key when that value is truthy, otherwise the stringified value
at the camelCase key when that value is truthy, otherwise absent; a
falsy-but-present value (0, the empty string, false) is skipped exactly
like a missing one because only truthiness is tested. -/
theorem claim_C4_getStringField (obj : JVal) (snake camel : String) :
    (truthy (obj.get snake) = true →
      getStringField obj snake camel = some (jstr (obj.get snake))) ∧
    (truthy (obj.get snake) = false → truthy (obj.get camel) = true →
      getStringField obj snake camel = some (jstr (obj.get camel))) ∧
    (truthy (obj.get snake) = false → truthy (obj.get camel) = false →
      getStringField obj snake camel = none) := by
  refine ⟨?_, ?_, ?_⟩
  · intro h1
    simp [getStringField, h1]
  · intro h1 h2
    simp [getStringField, h1, h2]
  · intro h1 h2
    simp [getStringField, h1, h2]

/-- C4 witness: the spec examples, including a present-but-falsy value
being treated as absent. -/
theorem claim_C4_witness :
    getStringField (.vObj [("last_published", .vStr "2025-01-01")])
      "last_published" "lastPublished" = some "2025-01-01" ∧
    getStringField (.vObj [("n", .vNum 0)]) "n" "m" = none :=
  ⟨(claim_C4_getStringField (.vObj [("last_published", .vStr "2025-01-01")])
      "last_published" "lastPublished").1 rfl,
   (claim_C4_getStringField (.vObj [("n", .vNum 0)]) "n" "m").2.2 rfl rfl⟩

/-- C7: identifier resolution returns a non-empty explicit argument, else
the configured default when non-empty, else fails with the configuration
error; an explicit non-empty argument always wins. -/
theorem claim_C7_resolveSiteId (env : WebflowEnv) (siteId : Option String) :
    (∀ s, siteId = some s → s ≠ "" → resolveSiteId env siteId = .ok s) ∧
    (strFalsy siteId = true → getDefaultSiteId env ≠ "" →
      resolveSiteId env siteId = .ok (getDefaultSiteId env)) ∧
    (strFalsy siteId = true → getDefaultSiteId env = "" →
      ∃ m, resolveSiteId env siteId = .error m) := by
  refine ⟨?_, ?_, ?_⟩
  · intro s hs hne
    subst hs
    simp [resolveSiteId, hne]
  · intro hf hd
    cases siteId with
    | none => simp [resolveSiteId, hd]
    | some s =>
      have hs : s = "" := by simpa [strFalsy] using hf
      subst hs
      simp [resolveSiteId, hd]
  · intro hf hd
    cases siteId with
    | none =>
      exact ⟨"A site ID is required. Either pass a siteId or set the WEBFLOW_SITE_ID environment variable.",
        by simp [resolveSiteId, hd]⟩
    | some s =>
      have hs : s = "" := by simpa [strFalsy] using hf
      subst hs
      exact ⟨"A site ID is required. Either pass a siteId or set the WEBFLOW_SITE_ID environment variable.",
        by simp [resolveSiteId, hd]⟩

/-- C7 witness: explicit id wins, the default is used when the argument
is omitted, and resolution fails when neither is available. -/
theorem claim_C7_witness :
    resolveSiteId wfEnv0 (some "explicit-site") = .ok "explicit-site" ∧
    resolveSiteId wfEnv0 none = .ok (getDefaultSiteId wfEnv0) ∧
    (∃ m, resolveSiteId ⟨some "key", ""⟩ none = .error m) :=
  ⟨(claim_C7_resolveSiteId wfEnv0 (some "explicit-site")).1 "explicit-site" rfl
      (by decide),
   (claim_C7_resolveSiteId wfEnv0 none).2.1 rfl (by decide),
   (claim_C7_resolveSiteId ⟨some "key", ""⟩ none).2.2 rfl rfl⟩

/-- C1: no execute function lets a failure escape (the embeddings are
total functions even over oracles that throw): for every environment,
oracle and input, each tool either returns a clean success (error absent,
success true where declared) or a converted failure with the error
message set, the success flag false and, for list tools, the empty
collection with count 0. -/
theorem claim_C1_error_containment :
    (∀ env api, (listSitesExec env api).1.error = none ∨
      ((listSitesExec env api).1.sites = [] ∧ (listSitesExec env api).1.count = 0 ∧
       (listSitesExec env api).1.error ≠ none)) ∧
    (∀ env api inp,
      ((publishSiteExec env api inp).1.success = true ∧
       (publishSiteExec env api inp).1.error = none) ∨
      ((publishSiteExec env api inp).1.success = false ∧
       (publishSiteExec env api inp).1.error ≠ none)) ∧
    (∀ env api inp, (listPagesExec env api inp).1.error = none ∨
      ((listPagesExec env api inp).1.pages = [] ∧
       (listPagesExec env api inp).1.count = 0 ∧
       (listPagesExec env api inp).1.error ≠ none)) ∧
    (∀ env api inp, (listFormsExec env api inp).1.error = none ∨
      ((listFormsExec env api inp).1.forms = [] ∧
       (listFormsExec env api inp).1.count = 0 ∧
       (listFormsExec env api inp).1.error ≠ none)) ∧
    (∀ env api inp, (listFormSubmissionsExec env api inp).1.error = none ∨
      ((listFormSubmissionsExec env api inp).1.formSubmissions = [] ∧
       (listFormSubmissionsExec env api inp).1.count = 0 ∧
       (listFormSubmissionsExec env api inp).1.error ≠ none)) ∧
    (∀ env api inp, (listCustomCodeExec env api inp).1.error = none ∨
      ((listCustomCodeExec env api inp).1.blocks = [] ∧
       (listCustomCodeExec env api inp).1.count = 0 ∧
       (listCustomCodeExec env api inp).1.error ≠ none)) ∧
    (∀ env api inp,
      ((addCustomCodeExec env api inp).1.success = true ∧
       (addCustomCodeExec env api inp).1.error = none) ∨
      ((addCustomCodeExec env api inp).1.success = false ∧
       (addCustomCodeExec env api inp).1.error ≠ none)) ∧
    (∀ env api inp,
      ((sendEmailExec env api inp).success = true ∧
       (sendEmailExec env api inp).error = none) ∨
      ((sendEmailExec env api inp).success = false ∧
       (sendEmailExec env api inp).id = "" ∧
       (sendEmailExec env api inp).error ≠ none)) ∧
    (∀ env api emails,
      ((sendBatchEmailsExec env api emails).success = true ∧
       (sendBatchEmailsExec env api emails).error = none) ∨
      ((sendBatchEmailsExec env api emails).success = false ∧
       (sendBatchEmailsExec env api emails).ids = [] ∧
       (sendBatchEmailsExec env api emails).count = 0 ∧
       (sendBatchEmailsExec env api emails).error ≠ none)) ∧
    (∀ env api emailId,
      ((getEmailExec env api emailId).success = true ∧
       (getEmailExec env api emailId).error = none) ∨
      ((getEmailExec env api emailId).success = false ∧
       (getEmailExec env api emailId).error ≠ none)) ∧
    (∀ env api, (listEmailsExec env api).error = none ∨
      ((listEmailsExec env api).emails = [] ∧ (listEmailsExec env api).count = 0 ∧
       (listEmailsExec env api).error ≠ none)) ∧
    (∀ env api inp,
      ((createContactExec env api inp).success = true ∧
       (createContactExec env api inp).error = none) ∨
      ((createContactExec env api inp).success = false ∧
       (createContactExec env api inp).id = "" ∧
       (createContactExec env api inp).error ≠ none)) ∧
    (∀ env api, (listContactsExec env api).error = none ∨
      ((listContactsExec env api).contacts = [] ∧
       (listContactsExec env api).count = 0 ∧
       (listContactsExec env api).error ≠ none)) ∧
    (∀ env api id,
      ((removeContactExec env api id).success = true ∧
       (removeContactExec env api id).error = none) ∨
      ((removeContactExec env api id).success = false ∧
       (removeContactExec env api id).deleted = false ∧
       (removeContactExec env api id).error ≠ none)) ∧
    (∀ env api inp, (listTemplatesExec env api inp).error = none ∨
      ((listTemplatesExec env api inp).templates = [] ∧
       (listTemplatesExec env api inp).count = 0 ∧
       (listTemplatesExec env api inp).error ≠ none)) ∧
    (∀ env api id,
      ((getTemplateExec env api id).success = true ∧
       (getTemplateExec env api id).error = none) ∨
      ((getTemplateExec env api id).success = false ∧
       (getTemplateExec env api id).error ≠ none)) := by
  refine ⟨?_, ?_, ?_, ?_, ?_, ?_, ?_, ?_, ?_, ?_, ?_, ?_, ?_, ?_, ?_, ?_⟩
  · intro env api
    unfold listSitesExec
    split
    · simp
    · split <;> simp
  · intro env api inp
    unfold publishSiteExec
    split
    · simp
    · split <;> simp
  · intro env api inp
    unfold listPagesExec
    split
    · simp
    · split
      · simp
      · split <;> simp
  · intro env api inp
    unfold listFormsExec
    split
    · simp
    · split
      · simp
      · split <;> simp
  · intro env api inp
    unfold listFormSubmissionsExec
    split
    · simp
    · split
      · simp
      · split <;> simp
  · intro env api inp
    unfold listCustomCodeExec
    split
    · simp
    · split
      · simp
      · split
        · simp
        · split <;> simp
  · intro env api inp
    unfold addCustomCodeExec
    split
    · simp
    · split
      · simp
      · cases hres : resolveSiteId env inp.siteId with
        | error m => simp [hres]
        | ok rid =>
          cases hreg : callApiT env api (registerReq rid inp) with
          | mk res tr =>
            cases res with
            | error m => simp [hres, hreg]
            | ok registered =>
              by_cases hid : strOrEmpty (registered.get "id") = ""
              · simp [hres, hreg, hid]
              · cases happ : callApiT env api
                    (applyReq rid (strOrEmpty (registered.get "id")) inp) with
                | mk res2 tr2 =>
                  cases res2 with
                  | error m => simp [hres, hreg, hid, happ]
                  | ok v => simp [hres, hreg, hid, happ]
  · intro env api inp
    unfold sendEmailExec
    split
    · split
      · simp
      · split <;> simp
    · simp
  · intro env api emails
    unfold sendBatchEmailsExec
    split
    · split
      · simp
      · split
        · simp
        · split <;> simp
    · simp
  · intro env api emailId
    unfold getEmailExec
    split
    · split
      · simp
      · split
        · simp
        · split <;> simp
    · simp
  · intro env api
    unfold listEmailsExec
    split
    · split
      · simp
      · split
        · simp
        · split <;> simp
    · simp
  · intro env api inp
    unfold createContactExec
    split
    · split
      · simp
      · split
        · simp
        · split <;> simp
    · simp
  · intro env api
    unfold listContactsExec
    split
    · split
      · simp
      · split
        · simp
        · split <;> simp
    · simp
  · intro env api id
    unfold removeContactExec
    split
    · split
      · simp
      · split
        · simp
        · split <;> simp
    · simp
  · intro env api inp
    unfold listTemplatesExec
    split
    · split
      · simp
      · split
        · simp
        · split
          · split <;> simp
          · simp
    · simp
  · intro env api id
    unfold getTemplateExec
    split
    · split
      · simp
      · split
        · simp
        · split <;> simp
    · simp

/-- C3: every request publishSite sends carries a body whose
publishToWebflowSubdomain key equals the caller value, defaulting to
false when omitted, and whose customDomains key is present exactly when
the caller supplied a non-empty list (equal to that list), being absent
from the body otherwise rather than an empty array. -/
theorem claim_C3_publish_body (env : WebflowEnv) (api : WebflowApi)
    (inp : PublishInput) (req : ApiRequest)
    (hmem : req ∈ (publishSiteExec env api inp).2) :
    ∃ fields, req.body = some (.vObj fields) ∧
      jlookup fields "publishToWebflowSubdomain" =
        some (.vBool (inp.publishToWebflowSubdomain.getD false)) ∧
      (∀ ds, inp.customDomains = some ds → ds ≠ [] →
        jlookup fields "customDomains" = some (.vArr (ds.map .vStr))) ∧
      ((inp.customDomains = none ∨ inp.customDomains = some []) →
        jlookup fields "customDomains" = none) := by
  have hkeys : ("publishToWebflowSubdomain" : String) ≠ "customDomains" := by decide
  unfold publishSiteExec at hmem
  cases hres : resolveSiteId env inp.siteId with
  | error m => rw [hres] at hmem; simp at hmem
  | ok rid =>
    rw [hres] at hmem
    by_cases hkey : hasApiKey env = true
    · have hreq : req = ⟨.post, "/sites/" ++ rid ++ "/publish", some (publishBody inp), []⟩ := by
        cases hres2 : api ⟨.post, "/sites/" ++ rid ++ "/publish", some (publishBody inp), []⟩ with
        | error m =>
          simp [callApiT, hkey, hres2] at hmem
          exact hmem
        | ok v =>
          simp [callApiT, hkey, hres2] at hmem
          exact hmem
      subst hreq
      refine ⟨_, rfl, ?_, ?_, ?_⟩
      · simp [publishBody, jlookup]
      · intro ds hds hne
        have hlen : 0 < ds.length := List.length_pos.mpr hne
        simp [publishBody, jlookup, hds, hlen, hkeys]
      · intro hcd
        rcases hcd with hcd | hcd <;> simp [publishBody, jlookup, hcd, hkeys]
    · simp [callApiT, hkey] at hmem

/-- C3 witness: with a supplied domain list the outgoing body carries
publishToWebflowSubdomain false (defaulted) and the supplied
customDomains list. -/
theorem claim_C3_witness :
    ∃ fields, c3Req.body = some (.vObj fields) ∧
      jlookup fields "publishToWebflowSubdomain" =
        some (.vBool (c3Inp.publishToWebflowSubdomain.getD false)) ∧
      (∀ ds, c3Inp.customDomains = some ds → ds ≠ [] →
        jlookup fields "customDomains" = some (.vArr (ds.map .vStr))) ∧
      ((c3Inp.customDomains = none ∨ c3Inp.customDomains = some []) →
        jlookup fields "customDomains" = none) :=
  claim_C3_publish_body wfEnv0 (wfApiConst (.vObj [])) c3Inp c3Req (List.Mem.head _)

/-- C5: when validation passes but the register response yields an empty
extracted script id, addCustomCode fails with the no-script-ID error and
the apply call is never made: exactly the one registration request went
out. -/
theorem claim_C5_register_no_id (env : WebflowEnv) (api : WebflowApi)
    (inp : AddCodeInput) (rid : String) (r : JVal)
    (hgate : ¬(inp.target = .page ∧ strFalsy inp.pageId = true))
    (hlen : inp.sourceCode.length ≤ 2000)
    (hkey : hasApiKey env = true)
    (hres : resolveSiteId env inp.siteId = .ok rid)
    (hreg : api (registerReq rid inp) = .ok r)
    (hid : strOrEmpty (r.get "id") = "") :
    (addCustomCodeExec env api inp).1 =
      ⟨false, "", none, some "Failed to register script: no script ID returned"⟩ ∧
    (addCustomCodeExec env api inp).2 = [registerReq rid inp] := by
  have hlen2 : ¬ inp.sourceCode.length > 2000 := by omega
  constructor <;>
    simp [addCustomCodeExec, hgate, hlen2, hres, callApiT, hkey, hreg, hid]

/-- C5 witness: a site-targeted short script whose register response is
an empty object yields the no-script-ID failure after exactly one
request. -/
theorem claim_C5_witness :
    (addCustomCodeExec wfEnv0 (wfApiConst (.vObj [])) cSiteInp).1 =
      ⟨false, "", none, some "Failed to register script: no script ID returned"⟩ ∧
    (addCustomCodeExec wfEnv0 (wfApiConst (.vObj [])) cSiteInp).2 =
      [registerReq "s1" cSiteInp] :=
  claim_C5_register_no_id wfEnv0 (wfApiConst (.vObj [])) cSiteInp "s1" (.vObj [])
    (by decide) (by decide) rfl rfl rfl rfl

/-- C6: when validation passes, registration yields a non-empty script id
and the apply call succeeds, addCustomCode returns success with that
script id and appliedTo page:id or site:id according to the target; the
trace is exactly the register request followed by the apply request, the
latter carrying the scripts payload to the page-scoped endpoint for a
page target and the site-scoped endpoint otherwise. -/
theorem claim_C6_register_apply (env : WebflowEnv) (api : WebflowApi)
    (inp : AddCodeInput) (rid : String) (r v : JVal)
    (hgate : ¬(inp.target = .page ∧ strFalsy inp.pageId = true))
    (hlen : inp.sourceCode.length ≤ 2000)
    (hkey : hasApiKey env = true)
    (hres : resolveSiteId env inp.siteId = .ok rid)
    (hreg : api (registerReq rid inp) = .ok r)
    (hid : strOrEmpty (r.get "id") ≠ "")
    (happ : api (applyReq rid (strOrEmpty (r.get "id")) inp) = .ok v) :
    (addCustomCodeExec env api inp).1 =
      ⟨true, strOrEmpty (r.get "id"),
       some (if inp.target = .page then "page:" ++ inp.pageId.getD ""
             else "site:" ++ rid), none⟩ ∧
    (addCustomCodeExec env api inp).2 =
      [registerReq rid inp, applyReq rid (strOrEmpty (r.get "id")) inp] ∧
    applyReq rid (strOrEmpty (r.get "id")) inp =
      (if inp.target = .page then
        ⟨.put, "/pages/" ++ inp.pageId.getD "" ++ "/custom_code",
         some (applyPayload (strOrEmpty (r.get "id")) inp), []⟩
      else
        ⟨.put, "/sites/" ++ rid ++ "/custom_code",
         some (applyPayload (strOrEmpty (r.get "id")) inp), []⟩) := by
  have hlen2 : ¬ inp.sourceCode.length > 2000 := by omega
  refine ⟨?_, ?_, ?_⟩
  · simp [addCustomCodeExec, hgate, hlen2, hres, callApiT, hkey, hreg, hid, happ]
  · simp [addCustomCodeExec, hgate, hlen2, hres, callApiT, hkey, hreg, hid, happ]
  · by_cases ht : inp.target = .page
    · have hp : strFalsy inp.pageId = false := by
        cases hfp : strFalsy inp.pageId with
        | true => exact absurd ⟨ht, hfp⟩ hgate
        | false => rfl
      simp [applyReq, ht, hp]
    · simp [applyReq, ht]

/-- C6 witness: the page-targeted input with a successful register and
apply returns success with appliedTo page:p1 and issues the register and
page-scoped apply requests. -/
theorem claim_C6_witness :
    (addCustomCodeExec wfEnv0 (wfApiConst regRespWithId) cPageInp).1 =
      ⟨true, strOrEmpty (regRespWithId.get "id"),
       some (if cPageInp.target = .page then "page:" ++ cPageInp.pageId.getD ""
             else "site:" ++ "s1"), none⟩ ∧
    (addCustomCodeExec wfEnv0 (wfApiConst regRespWithId) cPageInp).2 =
      [registerReq "s1" cPageInp,
       applyReq "s1" (strOrEmpty (regRespWithId.get "id")) cPageInp] ∧
    applyReq "s1" (strOrEmpty (regRespWithId.get "id")) cPageInp =
      (if cPageInp.target = .page then
        ⟨.put, "/pages/" ++ cPageInp.pageId.getD "" ++ "/custom_code",
         some (applyPayload (strOrEmpty (regRespWithId.get "id")) cPageInp), []⟩
      else
        ⟨.put, "/sites/" ++ "s1" ++ "/custom_code",
         some (applyPayload (strOrEmpty (regRespWithId.get "id")) cPageInp), []⟩) :=
  claim_C6_register_apply wfEnv0 (wfApiConst regRespWithId) cPageInp "s1"
    regRespWithId regRespWithId (by decide) (by decide) rfl rfl rfl (by decide) rfl

theorem replicate2001_length :
    (String.mk (List.replicate 2001 'a')).length = 2001 := by
  show (List.replicate 2001 'a').length = 2001
  rw [List.length_replicate]

theorem strAppend_assoc (a b c : String) : (a ++ b) ++ c = a ++ (b ++ c) := by
  cases a with
  | mk da =>
    cases b with
    | mk db =>
      cases c with
      | mk dc =>
        show String.mk ((da ++ db) ++ dc) = String.mk (da ++ (db ++ dc))
        rw [List.append_assoc]

theorem oversizeMsg_contains_count (n : Nat) :
    containsStr (oversizeMsg n) (toString n) = true := by
  unfold oversizeMsg
  rw [strAppend_assoc]
  exact containsStr_middle _ _ _

/-- C2 counterexample: the claim quantifies its oversize clause over
every input whose sourceCode exceeds 2000 characters, but an input that
is also page-targeted without a pageId is rejected by the pageId gate
first, so its error message is the pageId message, which does not contain
the character count 2001. -/
theorem claim_C2_counterexample :
    c2BadInput.sourceCode.length = 2001 ∧
    (addCustomCodeExec wfEnv0 (wfApiConst (.vObj [])) c2BadInput).2 = [] ∧
    (addCustomCodeExec wfEnv0 (wfApiConst (.vObj [])) c2BadInput).1.success = false ∧
    (addCustomCodeExec wfEnv0 (wfApiConst (.vObj [])) c2BadInput).1.error =
      some pageIdMissingMsg ∧
    containsStr pageIdMissingMsg "2001" = false := by
  exact ⟨replicate2001_length, rfl, rfl, rfl, by decide⟩

/-- C2 amended: a page-targeted input without a pageId is rejected with
zero remote calls and an error containing pageId is required; an input
whose sourceCode exceeds 2000 characters and which passes the pageId gate
is rejected with zero remote calls and an error containing the decimal
character count (when both validations fail, the pageId error wins and
the count is not reported). -/
theorem claim_C2_amended (env : WebflowEnv) (api : WebflowApi)
    (inp : AddCodeInput) :
    (inp.target = .page → strFalsy inp.pageId = true →
      (addCustomCodeExec env api inp).2 = [] ∧
      (addCustomCodeExec env api inp).1.success = false ∧
      ∃ m, (addCustomCodeExec env api inp).1.error = some m ∧
        containsStr m "pageId is required" = true) ∧
    (¬(inp.target = .page ∧ strFalsy inp.pageId = true) →
      inp.sourceCode.length > 2000 →
      (addCustomCodeExec env api inp).2 = [] ∧
      (addCustomCodeExec env api inp).1.success = false ∧
      ∃ m, (addCustomCodeExec env api inp).1.error = some m ∧
        containsStr m (toString inp.sourceCode.length) = true) := by
  constructor
  · intro ht hp
    refine ⟨?_, ?_, pageIdMissingMsg, ?_, by decide⟩ <;>
      simp [addCustomCodeExec, ht, hp]
  · intro hgate hlen
    refine ⟨?_, ?_, oversizeMsg inp.sourceCode.length, ?_,
        oversizeMsg_contains_count inp.sourceCode.length⟩ <;>
      simp [addCustomCodeExec, hgate, hlen]

/-- C2 witness: the pageId gate fires for a page-targeted input without
a pageId, and the oversize gate fires for a site-targeted input with 2001
characters of source. -/
theorem claim_C2_witness :
    ((addCustomCodeExec wfEnv0 (wfApiConst (.vObj []))
        ⟨none, .page, none, "x", "N", "1.0.0", .header⟩).2 = [] ∧
     (addCustomCodeExec wfEnv0 (wfApiConst (.vObj []))
        ⟨none, .page, none, "x", "N", "1.0.0", .header⟩).1.success = false ∧
     ∃ m, (addCustomCodeExec wfEnv0 (wfApiConst (.vObj []))
        ⟨none, .page, none, "x", "N", "1.0.0", .header⟩).1.error = some m ∧
       containsStr m "pageId is required" = true) ∧
    ((addCustomCodeExec wfEnv0 (wfApiConst (.vObj []))
        ⟨none, .site, none, String.mk (List.replicate 2001 'a'), "N", "1.0.0", .header⟩).2 = [] ∧
     (addCustomCodeExec wfEnv0 (wfApiConst (.vObj []))
        ⟨none, .site, none, String.mk (List.replicate 2001 'a'), "N", "1.0.0", .header⟩).1.success = false ∧
     ∃ m, (addCustomCodeExec wfEnv0 (wfApiConst (.vObj []))
        ⟨none, .site, none, String.mk (List.replicate 2001 'a'), "N", "1.0.0", .header⟩).1.error = some m ∧
       containsStr m (toString (String.mk (List.replicate 2001 'a') : String).length) = true) :=
  ⟨(claim_C2_amended wfEnv0 (wfApiConst (.vObj []))
      ⟨none, .page, none, "x", "N", "1.0.0", .header⟩).1 rfl rfl,
   (claim_C2_amended wfEnv0 (wfApiConst (.vObj []))
      ⟨none, .site, none, String.mk (List.replicate 2001 'a'), "N", "1.0.0", .header⟩).2
     (by decide)
     (by rw [show (String.mk (List.replicate 2001 'a')).length = 2001 from
           replicate2001_length]
         omega)⟩

/-- C8: for each paginated list tool, a successful invocation (one whose
result carries no error) echoes the upstream pagination: when the
response has no pagination object the output field is absent, and when it
has one the output contains its numeric limit, offset and total. -/
theorem claim_C8_pagination :
    (∀ (env : WebflowEnv) (api : WebflowApi) (inp : ListPagesInput) rid resp,
      hasApiKey env = true →
      resolveSiteId env inp.siteId = .ok rid →
      api ⟨.get, "/sites/" ++ rid ++ "/pages", none,
        [("limit", inp.limit.map toString), ("offset", inp.offset.map toString)]⟩ = .ok resp →
      (listPagesExec env api inp).1.error = none →
      ((resp.get "pagination" = .vUndefined →
        (listPagesExec env api inp).1.pagination = none) ∧
       (∀ fields, resp.get "pagination" = .vObj fields →
        ∃ l o t, (listPagesExec env api inp).1.pagination = some ⟨l, o, t⟩))) ∧
    (∀ (env : WebflowEnv) (api : WebflowApi) (inp : ListFormsInput) rid resp,
      hasApiKey env = true →
      resolveSiteId env inp.siteId = .ok rid →
      api ⟨.get, "/sites/" ++ rid ++ "/forms", none,
        [("limit", inp.limit.map toString), ("offset", inp.offset.map toString)]⟩ = .ok resp →
      (listFormsExec env api inp).1.error = none →
      ((resp.get "pagination" = .vUndefined →
        (listFormsExec env api inp).1.pagination = none) ∧
       (∀ fields, resp.get "pagination" = .vObj fields →
        ∃ l o t, (listFormsExec env api inp).1.pagination = some ⟨l, o, t⟩))) ∧
    (∀ (env : WebflowEnv) (api : WebflowApi) (inp : ListSubmissionsInput) rid resp,
      hasApiKey env = true →
      resolveSiteId env inp.siteId = .ok rid →
      api ⟨.get, "/sites/" ++ rid ++ "/form_submissions", none,
        [("elementId", inp.elementId), ("limit", inp.limit.map toString),
         ("offset", inp.offset.map toString)]⟩ = .ok resp →
      (listFormSubmissionsExec env api inp).1.error = none →
      ((resp.get "pagination" = .vUndefined →
        (listFormSubmissionsExec env api inp).1.pagination = none) ∧
       (∀ fields, resp.get "pagination" = .vObj fields →
        ∃ l o t, (listFormSubmissionsExec env api inp).1.pagination = some ⟨l, o, t⟩))) ∧
    (∀ (env : WebflowEnv) (api : WebflowApi) (inp : ListCustomCodeInput) rid resp,
      hasApiKey env = true →
      resolveSiteId env inp.siteId = .ok rid →
      api ⟨.get, "/sites/" ++ rid ++ "/custom_code/blocks", none,
        [("limit", inp.limit.map toString), ("offset", inp.offset.map toString)]⟩ = .ok resp →
      (listCustomCodeExec env api inp).1.error = none →
      ((resp.get "pagination" = .vUndefined →
        (listCustomCodeExec env api inp).1.pagination = none) ∧
       (∀ fields, resp.get "pagination" = .vObj fields →
        ∃ l o t, (listCustomCodeExec env api inp).1.pagination = some ⟨l, o, t⟩))) := by
  refine ⟨?_, ?_, ?_, ?_⟩
  · intro env api inp rid resp hkey hres hapi herr
    cases harr : asArrT (resp.get "pages") with
    | error m =>
      exfalso
      simp [listPagesExec, hres, callApiT, hkey, hapi, harr] at herr
    | ok raws =>
      constructor
      · intro hnone
        simp [listPagesExec, hres, callApiT, hkey, hapi, harr, pageEcho,
          hnone, truthy]
      · intro fields hf
        refine ⟨jnum (nvl ((resp.get "pagination").get "limit") (.vNum 0)),
          jnum (nvl ((resp.get "pagination").get "offset") (.vNum 0)),
          jnum (nvl ((resp.get "pagination").get "total") (.vNum 0)), ?_⟩
        simp [listPagesExec, hres, callApiT, hkey, hapi, harr, pageEcho,
          hf, truthy]
  · intro env api inp rid resp hkey hres hapi herr
    cases harr : asArrT (resp.get "forms") with
    | error m =>
      exfalso
      simp [listFormsExec, hres, callApiT, hkey, hapi, harr] at herr
    | ok raws =>
      constructor
      · intro hnone
        simp [listFormsExec, hres, callApiT, hkey, hapi, harr, pageEcho,
          hnone, truthy]
      · intro fields hf
        refine ⟨jnum (nvl ((resp.get "pagination").get "limit") (.vNum 0)),
          jnum (nvl ((resp.get "pagination").get "offset") (.vNum 0)),
          jnum (nvl ((resp.get "pagination").get "total") (.vNum 0)), ?_⟩
        simp [listFormsExec, hres, callApiT, hkey, hapi, harr, pageEcho,
          hf, truthy]
  · intro env api inp rid resp hkey hres hapi herr
    cases harr : asArrT (resp.get "formSubmissions") with
    | error m =>
      exfalso
      simp [listFormSubmissionsExec, hres, callApiT, hkey, hapi, harr] at herr
    | ok raws =>
      constructor
      · intro hnone
        simp [listFormSubmissionsExec, hres, callApiT, hkey, hapi, harr,
          pageEcho, hnone, truthy]
      · intro fields hf
        refine ⟨jnum (nvl ((resp.get "pagination").get "limit") (.vNum 0)),
          jnum (nvl ((resp.get "pagination").get "offset") (.vNum 0)),
          jnum (nvl ((resp.get "pagination").get "total") (.vNum 0)), ?_⟩
        simp [listFormSubmissionsExec, hres, callApiT, hkey, hapi, harr,
          pageEcho, hf, truthy]
  · intro env api inp rid resp hkey hres hapi herr
    cases harr : asArrT (resp.get "blocks") with
    | error m =>
      exfalso
      simp [listCustomCodeExec, hres, callApiT, hkey, hapi, harr] at herr
    | ok rawBlocks =>
      cases hmap : rawBlocks.mapM projBlockT with
      | error m =>
        exfalso
        simp only [List.mapM] at hmap
        simp [listCustomCodeExec, hres, callApiT, hkey, hapi, harr, hmap] at herr
      | ok blocks =>
        simp only [List.mapM] at hmap
        constructor
        · intro hnone
          simp [listCustomCodeExec, hres, callApiT, hkey, hapi, harr, hmap,
            pageEcho, hnone, truthy]
        · intro fields hf
          refine ⟨jnum (nvl ((resp.get "pagination").get "limit") (.vNum 0)),
            jnum (nvl ((resp.get "pagination").get "offset") (.vNum 0)),
            jnum (nvl ((resp.get "pagination").get "total") (.vNum 0)), ?_⟩
          simp [listCustomCodeExec, hres, callApiT, hkey, hapi, harr, hmap,
            pageEcho, hf, truthy]

/-- C8 witness: a response without pagination yields an absent field in
each of the four list tools, and one with pagination yields the echo. -/
theorem claim_C8_witness :
    (listPagesExec wfEnv0 (wfApiConst (.vObj [])) ⟨some "s1", none, none⟩).1.pagination = none ∧
    (∃ l o t, (listPagesExec wfEnv0 (wfApiConst pagResp)
      ⟨some "s1", none, none⟩).1.pagination = some ⟨l, o, t⟩) ∧
    (listFormsExec wfEnv0 (wfApiConst (.vObj [])) ⟨some "s1", none, none⟩).1.pagination = none ∧
    (listFormSubmissionsExec wfEnv0 (wfApiConst (.vObj []))
      ⟨some "s1", none, none, none⟩).1.pagination = none ∧
    (listCustomCodeExec wfEnv0 (wfApiConst (.vObj []))
      ⟨some "s1", none, none⟩).1.pagination = none :=
  ⟨(claim_C8_pagination.1 wfEnv0 (wfApiConst (.vObj [])) ⟨some "s1", none, none⟩
      "s1" (.vObj []) rfl rfl rfl rfl).1 rfl,
   (claim_C8_pagination.1 wfEnv0 (wfApiConst pagResp) ⟨some "s1", none, none⟩
      "s1" pagResp rfl rfl rfl rfl).2
     [("limit", .vNum 10), ("offset", .vNum 0), ("total", .vNum 25)] rfl,
   (claim_C8_pagination.2.1 wfEnv0 (wfApiConst (.vObj [])) ⟨some "s1", none, none⟩
      "s1" (.vObj []) rfl rfl rfl rfl).1 rfl,
   (claim_C8_pagination.2.2.1 wfEnv0 (wfApiConst (.vObj []))
      ⟨some "s1", none, none, none⟩ "s1" (.vObj []) rfl rfl rfl rfl).1 rfl,
   (claim_C8_pagination.2.2.2 wfEnv0 (wfApiConst (.vObj []))
      ⟨some "s1", none, none⟩ "s1" (.vObj []) rfl rfl rfl rfl).1 rfl⟩

/-- C9 counterexample: getEmail declares from, to, subject, lastEvent and
createdAt as optional output fields, yet a success response whose record
is the empty object still populates lastEvent with an empty-string
default, so an optional field is present although the upstream provided
no truthy value for it. -/
theorem claim_C9_counterexample :
    (getEmailExec rsEnv0 (rsApiConst (.ok ⟨some (.vObj []), none⟩))
      "email-1").success = true ∧
    (getEmailExec rsEnv0 (rsApiConst (.ok ⟨some (.vObj []), none⟩))
      "email-1").lastEvent = some "" ∧
    truthy ((JVal.vObj []).get "last_event") = false ∧
    truthy ((JVal.vObj []).get "lastEvent") = false :=
  ⟨rfl, rfl, rfl, rfl⟩

/-- C9 amended: required fields of the reshaped records are populated
with explicit defaults (empty string, false) rather than absent, and
every optional field reshaped from upstream data is present only when
the upstream provided a truthy value, except the fields the code fills
with defaults even when the upstream omits them: the getEmail success
fields from, to, subject, lastEvent and createdAt, the listEmails record
fields lastEvent and createdAt, the listFormSubmissions record field
formResponse, and the listTemplates field hasMore. -/
theorem claim_C9_amended :
    (∀ raw : JVal,
      ((projSite raw).previewUrl = none ↔ truthy (raw.get "previewUrl") = false) ∧
      ((projSite raw).timeZone = none ↔ truthy (raw.get "timeZone") = false) ∧
      ((projSite raw).lastPublished = none ↔
        (truthy (raw.get "last_published") = false ∧
         truthy (raw.get "lastPublished") = false)) ∧
      ((projSite raw).lastUpdated = none ↔
        (truthy (raw.get "last_updated") = false ∧
         truthy (raw.get "lastUpdated") = false)) ∧
      ((projSite raw).customDomains.isSome = true →
        truthy (raw.get "customDomains") = true) ∧
      (nullish (raw.get "id") = true → (projSite raw).id = "") ∧
      (nullish (raw.get "displayName") = true → (projSite raw).displayName = "") ∧
      (nullish (raw.get "shortName") = true → (projSite raw).shortName = "")) ∧
    (∀ d : JVal,
      (nullish (d.get "id") = true → (projDomain d).id = "") ∧
      (nullish (d.get "url") = true → (projDomain d).url = "")) ∧
    (∀ page : JVal,
      ((projPage page).archived.isSome = true → truthy (page.get "archived") = true) ∧
      ((projPage page).draft.isSome = true → truthy (page.get "draft") = true) ∧
      ((projPage page).publishedPath.isSome = true →
        truthy (page.get "publishedPath") = true) ∧
      ((projPage page).seo.isSome = true → truthy (page.get "seo") = true) ∧
      ((projPage page).createdOn.isSome = true →
        truthy (page.get "created_on") = true ∨ truthy (page.get "createdOn") = true) ∧
      ((projPage page).lastUpdated.isSome = true →
        truthy (page.get "last_updated") = true ∨ truthy (page.get "lastUpdated") = true) ∧
      (nullish (page.get "id") = true → (projPage page).id = "") ∧
      (nullish (page.get "title") = true → (projPage page).title = "") ∧
      (nullish (page.get "slug") = true → (projPage page).slug = "")) ∧
    (∀ form : JVal,
      ((projForm form).pageId.isSome = true → truthy (form.get "pageId") = true) ∧
      ((projForm form).pageName.isSome = true → truthy (form.get "pageName") = true) ∧
      ((projForm form).formElementId.isSome = true →
        truthy (form.get "form_element_id") = true ∨
        truthy (form.get "formElementId") = true) ∧
      ((projForm form).fields.isSome = true → truthy (form.get "fields") = true) ∧
      ((projForm form).createdOn.isSome = true →
        truthy (form.get "created_on") = true ∨ truthy (form.get "createdOn") = true) ∧
      ((projForm form).lastUpdated.isSome = true →
        truthy (form.get "last_updated") = true ∨ truthy (form.get "lastUpdated") = true) ∧
      (nullish (form.get "id") = true → (projForm form).id = "") ∧
      (nullish (form.get "displayName") = true → (projForm form).displayName = "")) ∧
    (∀ s : JVal,
      ((projSubmission s).displayName.isSome = true →
        truthy (s.get "displayName") = true) ∧
      ((projSubmission s).dateSubmitted.isSome = true →
        truthy (s.get "date_submitted") = true ∨
        truthy (s.get "dateSubmitted") = true) ∧
      ((projSubmission s).formResponse.isSome = true) ∧
      (s.get "formResponse" = .vUndefined →
        (projSubmission s).formResponse = some (.vObj [])) ∧
      (nullish (s.get "id") = true → (projSubmission s).id = "")) ∧
    (∀ b bi, projBlockT b = .ok bi →
      ((bi.pageId.isSome = true → truthy (b.get "pageId") = true) ∧
       (bi.type.isSome = true → truthy (b.get "type") = true) ∧
       (bi.createdOn.isSome = true →
         truthy (b.get "created_on") = true ∨ truthy (b.get "createdOn") = true) ∧
       (bi.lastUpdated.isSome = true →
         truthy (b.get "last_updated") = true ∨ truthy (b.get "lastUpdated") = true) ∧
       (nullish (b.get "siteId") = true → bi.siteId = ""))) ∧
    (∀ sc : JVal,
      (nullish (sc.get "id") = true → (projScript sc).id = "") ∧
      (nullish (sc.get "location") = true → (projScript sc).location = "") ∧
      (nullish (sc.get "version") = true → (projScript sc).version = "")) ∧
    (∀ (env : WebflowEnv) (api : WebflowApi) (inp : PublishInput) rid resp,
      hasApiKey env = true →
      resolveSiteId env inp.siteId = .ok rid →
      api ⟨.post, "/sites/" ++ rid ++ "/publish", some (publishBody inp), []⟩ = .ok resp →
      ((publishSiteExec env api inp).1.publishedDomains.isSome = true →
        truthy (resp.get "customDomains") = true)) ∧
    (∀ (env : ResendEnv) (api : ResendApi) (emailId : String) (email : JVal),
      hasResendKey env = true →
      api.emailsGet emailId = .ok ⟨some email, none⟩ →
      ((getEmailExec env api emailId).success = true ∧
       (getEmailExec env api emailId).from'.isSome = true ∧
       (getEmailExec env api emailId).to'.isSome = true ∧
       (getEmailExec env api emailId).subject.isSome = true ∧
       (getEmailExec env api emailId).lastEvent.isSome = true ∧
       (getEmailExec env api emailId).createdAt.isSome = true ∧
       (nullish (email.get "id") = true →
         (getEmailExec env api emailId).id = emailId))) ∧
    (∀ e : JVal,
      (projEmail e).lastEvent.isSome = true ∧
      (projEmail e).createdAt.isSome = true ∧
      (nullish (e.get "id") = true → (projEmail e).id = "")) ∧
    (∀ c : JVal,
      ((projContact c).firstName.isSome = true →
        truthy (c.get "first_name") = true ∨ truthy (c.get "firstName") = true) ∧
      ((projContact c).lastName.isSome = true →
        truthy (c.get "last_name") = true ∨ truthy (c.get "lastName") = true) ∧
      (nullish (c.get "id") = true → (projContact c).id = "") ∧
      (nullish (c.get "email") = true → (projContact c).email = "") ∧
      (nullish (c.get "unsubscribed") = true → (projContact c).unsubscribed = false)) ∧
    (∀ t : JVal,
      ((projTemplate t).alias'.isSome = true → truthy (t.get "alias") = true) ∧
      ((projTemplate t).createdAt.isSome = true →
        truthy (t.get "created_at") = true ∨ truthy (t.get "createdAt") = true) ∧
      ((projTemplate t).updatedAt.isSome = true →
        truthy (t.get "updated_at") = true ∨ truthy (t.get "updatedAt") = true) ∧
      ((projTemplate t).publishedAt.isSome = true →
        truthy (t.get "published_at") = true ∨ truthy (t.get "publishedAt") = true) ∧
      (nullish (t.get "id") = true → (projTemplate t).id = "") ∧
      (nullish (t.get "name") = true → (projTemplate t).name = "") ∧
      (nullish (t.get "status") = true → (projTemplate t).status = "")) ∧
    (∀ v : JVal,
      ((projVariable v).fallbackValue.isSome = true →
        truthy (v.get "fallback_value") = true ∨
        truthy (v.get "fallbackValue") = true) ∧
      (nullish (v.get "id") = true → (projVariable v).id = "") ∧
      (nullish (v.get "key") = true → (projVariable v).key = "") ∧
      (nullish (v.get "type") = true → (projVariable v).type = "string")) ∧
    (∀ (env : ResendEnv) (api : ResendApi) (inp : ListTemplatesInput) result raws,
      hasResendKey env = true →
      api.templatesList (listTemplatesParams inp) = .ok ⟨some result, none⟩ →
      asArrT (result.get "data") = .ok raws →
      (listTemplatesExec env api inp).hasMore.isSome = true) ∧
    (∀ (env : ResendEnv) (api : ResendApi) (id : String) (result : JVal),
      hasResendKey env = true →
      api.templatesGet id = .ok ⟨some result, none⟩ →
      (((getTemplateExec env api id).name.isSome = true →
         truthy (result.get "name") = true) ∧
       ((getTemplateExec env api id).alias'.isSome = true →
         truthy (result.get "alias") = true) ∧
       ((getTemplateExec env api id).status.isSome = true →
         truthy (result.get "status") = true) ∧
       ((getTemplateExec env api id).from'.isSome = true →
         truthy (result.get "from") = true) ∧
       ((getTemplateExec env api id).subject.isSome = true →
         truthy (result.get "subject") = true) ∧
       ((getTemplateExec env api id).replyTo.isSome = true →
         truthy (result.get "reply_to") = true ∨
         truthy (result.get "replyTo") = true) ∧
       ((getTemplateExec env api id).variables'.isSome = true →
         truthy (result.get "variables") = true) ∧
       ((getTemplateExec env api id).createdAt.isSome = true →
         truthy (result.get "created_at") = true ∨
         truthy (result.get "createdAt") = true) ∧
       ((getTemplateExec env api id).updatedAt.isSome = true →
         truthy (result.get "updated_at") = true ∨
         truthy (result.get "updatedAt") = true) ∧
       ((getTemplateExec env api id).publishedAt.isSome = true →
         truthy (result.get "published_at") = true ∨
         truthy (result.get "publishedAt") = true))) := by
  refine ⟨?_, ?_, ?_, ?_, ?_, ?_, ?_, ?_, ?_, ?_, ?_, ?_, ?_, ?_, ?_⟩
  · intro raw
    refine ⟨?_, ?_, ?_, ?_, ?_, ?_, ?_, ?_⟩
    · cases hv : truthy (raw.get "previewUrl") <;> simp [projSite, optStr, hv]
    · cases hv : truthy (raw.get "timeZone") <;> simp [projSite, optStr, hv]
    · cases h1 : truthy (raw.get "last_published") <;>
        cases h2 : truthy (raw.get "lastPublished") <;>
        simp [projSite, getStringField, h1, h2]
    · cases h1 : truthy (raw.get "last_updated") <;>
        cases h2 : truthy (raw.get "lastUpdated") <;>
        simp [projSite, getStringField, h1, h2]
    · intro h
      cases hv : raw.get "customDomains" <;> simp [projSite, hv, truthy] at h ⊢
    · intro h
      simp [projSite, strOrEmpty, strOr, nvl, h, jstr]
    · intro h
      simp [projSite, strOrEmpty, strOr, nvl, h, jstr]
    · intro h
      simp [projSite, strOrEmpty, strOr, nvl, h, jstr]
  · intro d
    constructor
    · intro h
      simp [projDomain, strOrEmpty, strOr, nvl, h, jstr]
    · intro h
      simp [projDomain, strOrEmpty, strOr, nvl, h, jstr]
  · intro page
    refine ⟨?_, ?_, ?_, ?_, ?_, ?_, ?_, ?_, ?_⟩
    · intro h
      cases hv : truthy (page.get "archived") with
      | true => rfl
      | false => simp [projPage, hv] at h
    · intro h
      cases hv : truthy (page.get "draft") with
      | true => rfl
      | false => simp [projPage, hv] at h
    · intro h
      cases hv : truthy (page.get "publishedPath") with
      | true => rfl
      | false => simp [projPage, optStr, hv] at h
    · intro h
      cases hv : truthy (page.get "seo") with
      | true => rfl
      | false => simp [projPage, hv] at h
    · intro h
      cases h1 : truthy (page.get "created_on") with
      | true => exact Or.inl rfl
      | false =>
        cases h2 : truthy (page.get "createdOn") with
        | true => exact Or.inr rfl
        | false => simp [projPage, getStringField, h1, h2] at h
    · intro h
      cases h1 : truthy (page.get "last_updated") with
      | true => exact Or.inl rfl
      | false =>
        cases h2 : truthy (page.get "lastUpdated") with
        | true => exact Or.inr rfl
        | false => simp [projPage, getStringField, h1, h2] at h
    · intro h
      simp [projPage, strOrEmpty, strOr, nvl, h, jstr]
    · intro h
      simp [projPage, strOrEmpty, strOr, nvl, h, jstr]
    · intro h
      simp [projPage, strOrEmpty, strOr, nvl, h, jstr]
  · intro form
    refine ⟨?_, ?_, ?_, ?_, ?_, ?_, ?_, ?_⟩
    · intro h
      cases hv : truthy (form.get "pageId") with
      | true => rfl
      | false => simp [projForm, optStr, hv] at h
    · intro h
      cases hv : truthy (form.get "pageName") with
      | true => rfl
      | false => simp [projForm, optStr, hv] at h
    · intro h
      cases h1 : truthy (form.get "form_element_id") with
      | true => exact Or.inl rfl
      | false =>
        cases h2 : truthy (form.get "formElementId") with
        | true => exact Or.inr rfl
        | false => simp [projForm, getStringField, h1, h2] at h
    · intro h
      cases hv : form.get "fields" <;>
        simp [projForm, parseFormFields, hv, truthy] at h ⊢
    · intro h
      cases h1 : truthy (form.get "created_on") with
      | true => exact Or.inl rfl
      | false =>
        cases h2 : truthy (form.get "createdOn") with
        | true => exact Or.inr rfl
        | false => simp [projForm, getStringField, h1, h2] at h
    · intro h
      cases h1 : truthy (form.get "last_updated") with
      | true => exact Or.inl rfl
      | false =>
        cases h2 : truthy (form.get "lastUpdated") with
        | true => exact Or.inr rfl
        | false => simp [projForm, getStringField, h1, h2] at h
    · intro h
      simp [projForm, strOrEmpty, strOr, nvl, h, jstr]
    · intro h
      simp [projForm, strOrEmpty, strOr, nvl, h, jstr]
  · intro s
    refine ⟨?_, ?_, ?_, ?_, ?_⟩
    · intro h
      cases hv : truthy (s.get "displayName") with
      | true => rfl
      | false => simp [projSubmission, optStr, hv] at h
    · intro h
      cases h1 : truthy (s.get "date_submitted") with
      | true => exact Or.inl rfl
      | false =>
        cases h2 : truthy (s.get "dateSubmitted") with
        | true => exact Or.inr rfl
        | false => simp [projSubmission, getStringField, h1, h2] at h
    · simp [projSubmission]
    · intro h
      simp [projSubmission, nvl, h, nullish]
    · intro h
      simp [projSubmission, strOrEmpty, strOr, nvl, h, jstr]
  · intro b bi hok
    cases harr : asArrT (b.get "scripts") with
    | error m => simp [projBlockT, harr] at hok
    | ok rawScripts =>
      simp only [projBlockT, harr, Except.ok.injEq] at hok
      subst hok
      refine ⟨?_, ?_, ?_, ?_, ?_⟩
      · intro h
        cases hv : truthy (b.get "pageId") with
        | true => rfl
        | false => simp [optStr, hv] at h
      · intro h
        cases hv : truthy (b.get "type") with
        | true => rfl
        | false => simp [optStr, hv] at h
      · intro h
        cases h1 : truthy (b.get "created_on") with
        | true => exact Or.inl rfl
        | false =>
          cases h2 : truthy (b.get "createdOn") with
          | true => exact Or.inr rfl
          | false => simp [getStringField, h1, h2] at h
      · intro h
        cases h1 : truthy (b.get "last_updated") with
        | true => exact Or.inl rfl
        | false =>
          cases h2 : truthy (b.get "lastUpdated") with
          | true => exact Or.inr rfl
          | false => simp [getStringField, h1, h2] at h
      · intro h
        simp [strOrEmpty, strOr, nvl, h, jstr]
  · intro sc
    refine ⟨?_, ?_, ?_⟩
    · intro h
      simp [projScript, strOrEmpty, strOr, nvl, h, jstr]
    · intro h
      simp [projScript, strOrEmpty, strOr, nvl, h, jstr]
    · intro h
      simp [projScript, strOrEmpty, strOr, nvl, h, jstr]
  · intro env api inp rid resp hkey hres hapi h
    cases hv : resp.get "customDomains" <;>
      simp [publishSiteExec, hres, callApiT, hkey, hapi, hv, truthy] at h ⊢
  · intro env api emailId email hkey hget
    refine ⟨?_, ?_, ?_, ?_, ?_, ?_, ?_⟩
    · simp [getEmailExec, hkey, hget]
    · simp [getEmailExec, hkey, hget]
    · simp [getEmailExec, hkey, hget]
    · simp [getEmailExec, hkey, hget]
    · simp [getEmailExec, hkey, hget]
    · simp [getEmailExec, hkey, hget]
    · intro h
      simp [getEmailExec, hkey, hget, strOr, nvl, h, jstr]
  · intro e
    refine ⟨?_, ?_, ?_⟩
    · simp [projEmail]
    · simp [projEmail]
    · intro h
      simp [projEmail, strOrEmpty, strOr, nvl, h, jstr]
  · intro c
    refine ⟨?_, ?_, ?_, ?_, ?_⟩
    · intro h
      cases h1 : truthy (c.get "first_name") with
      | true => exact Or.inl rfl
      | false =>
        cases h2 : truthy (c.get "firstName") with
        | true => exact Or.inr rfl
        | false => simp [projContact, getStringField, h1, h2] at h
    · intro h
      cases h1 : truthy (c.get "last_name") with
      | true => exact Or.inl rfl
      | false =>
        cases h2 : truthy (c.get "lastName") with
        | true => exact Or.inr rfl
        | false => simp [projContact, getStringField, h1, h2] at h
    · intro h
      simp [projContact, strOrEmpty, strOr, nvl, h, jstr]
    · intro h
      simp [projContact, strOrEmpty, strOr, nvl, h, jstr]
    · intro h
      simp [projContact, nvl, h, truthy]
  · intro t
    refine ⟨?_, ?_, ?_, ?_, ?_, ?_, ?_⟩
    · intro h
      cases hv : truthy (t.get "alias") with
      | true => rfl
      | false => simp [projTemplate, optStr, hv] at h
    · intro h
      cases h1 : truthy (t.get "created_at") with
      | true => exact Or.inl rfl
      | false =>
        cases h2 : truthy (t.get "createdAt") with
        | true => exact Or.inr rfl
        | false => simp [projTemplate, getStringField, h1, h2] at h
    · intro h
      cases h1 : truthy (t.get "updated_at") with
      | true => exact Or.inl rfl
      | false =>
        cases h2 : truthy (t.get "updatedAt") with
        | true => exact Or.inr rfl
        | false => simp [projTemplate, getStringField, h1, h2] at h
    · intro h
      cases h1 : truthy (t.get "published_at") with
      | true => exact Or.inl rfl
      | false =>
        cases h2 : truthy (t.get "publishedAt") with
        | true => exact Or.inr rfl
        | false => simp [projTemplate, getStringField, h1, h2] at h
    · intro h
      simp [projTemplate, strOrEmpty, strOr, nvl, h, jstr]
    · intro h
      simp [projTemplate, strOrEmpty, strOr, nvl, h, jstr]
    · intro h
      simp [projTemplate, strOrEmpty, strOr, nvl, h, jstr]
  · intro v
    refine ⟨?_, ?_, ?_, ?_⟩
    · intro h
      cases h1 : truthy (v.get "fallback_value") with
      | true => exact Or.inl rfl
      | false =>
        cases h2 : truthy (v.get "fallbackValue") with
        | true => exact Or.inr rfl
        | false => simp [projVariable, getStringField, h1, h2] at h
    · intro h
      simp [projVariable, strOrEmpty, strOr, nvl, h, jstr]
    · intro h
      simp [projVariable, strOrEmpty, strOr, nvl, h, jstr]
    · intro h
      simp [projVariable, strOr, nvl, h, jstr]
  · intro env api inp result raws hkey happ harr
    simp [listTemplatesExec, hkey, happ, harr]
  · intro env api id result hkey hget
    refine ⟨?_, ?_, ?_, ?_, ?_, ?_, ?_, ?_, ?_, ?_⟩
    · intro h
      cases hv : truthy (result.get "name") with
      | true => rfl
      | false => simp [getTemplateExec, hkey, hget, optStr, hv] at h
    · intro h
      cases hv : truthy (result.get "alias") with
      | true => rfl
      | false => simp [getTemplateExec, hkey, hget, optStr, hv] at h
    · intro h
      cases hv : truthy (result.get "status") with
      | true => rfl
      | false => simp [getTemplateExec, hkey, hget, optStr, hv] at h
    · intro h
      cases hv : truthy (result.get "from") with
      | true => rfl
      | false => simp [getTemplateExec, hkey, hget, optStr, hv] at h
    · intro h
      cases hv : truthy (result.get "subject") with
      | true => rfl
      | false => simp [getTemplateExec, hkey, hget, optStr, hv] at h
    · intro h
      cases h1 : truthy (result.get "reply_to") with
      | true => exact Or.inl rfl
      | false =>
        cases h2 : truthy (result.get "replyTo") with
        | true => exact Or.inr rfl
        | false => simp [getTemplateExec, hkey, hget, getStringField, h1, h2] at h
    · intro h
      cases hv : result.get "variables" <;>
        simp [getTemplateExec, hkey, hget, hv, truthy] at h ⊢
    · intro h
      cases h1 : truthy (result.get "created_at") with
      | true => exact Or.inl rfl
      | false =>
        cases h2 : truthy (result.get "createdAt") with
        | true => exact Or.inr rfl
        | false => simp [getTemplateExec, hkey, hget, getStringField, h1, h2] at h
    · intro h
      cases h1 : truthy (result.get "updated_at") with
      | true => exact Or.inl rfl
      | false =>
        cases h2 : truthy (result.get "updatedAt") with
        | true => exact Or.inr rfl
        | false => simp [getTemplateExec, hkey, hget, getStringField, h1, h2] at h
    · intro h
      cases h1 : truthy (result.get "published_at") with
      | true => exact Or.inl rfl
      | false =>
        cases h2 : truthy (result.get "publishedAt") with
        | true => exact Or.inr rfl
        | false => simp [getTemplateExec, hkey, hget, getStringField, h1, h2] at h

/-- C9 witness: the empty site record has no previewUrl in its
projection; the empty submission record still carries formResponse as the
empty object; an empty listEmails record still has lastEvent present; and
a getEmail success on a minimal record has its optional lastEvent field
present. -/
theorem claim_C9_witness :
    (projSite (.vObj [])).previewUrl = none ∧
    (projSubmission (.vObj [])).formResponse = some (.vObj []) ∧
    (projEmail (.vObj [])).lastEvent.isSome = true ∧
    (getEmailExec rsEnv0
      (rsApiConst (.ok ⟨some (.vObj [("id", .vStr "e1")]), none⟩))
      "e1").lastEvent.isSome = true :=
  ⟨((claim_C9_amended.1 (.vObj [])).1).mpr rfl,
   (claim_C9_amended.2.2.2.2.1 (.vObj [])).2.2.2.1 rfl,
   (claim_C9_amended.2.2.2.2.2.2.2.2.2.1 (.vObj [])).1,
   (claim_C9_amended.2.2.2.2.2.2.2.2.1 rsEnv0
      (rsApiConst (.ok ⟨some (.vObj [("id", .vStr "e1")]), none⟩)) "e1"
      (.vObj [("id", .vStr "e1")]) rfl rfl).2.2.2.2.1⟩

/-- C10: when the SDK remove call succeeds with a data record,
removeContact reports success with deleted equal to the upstream deleted
field when present (true when omitted) and id equal to the upstream id
when present (the caller-supplied lookup key when omitted); on every
failure path deleted is false and id is the caller-supplied key. -/
theorem claim_C10_removeContact (env : ResendEnv) (api : ResendApi)
    (id : String) :
    (∀ d, hasResendKey env = true →
      api.contactsRemove (.vObj [("id", .vStr id)]) = .ok ⟨some d, none⟩ →
      ((removeContactExec env api id).success = true ∧
       (∀ b, d.get "deleted" = .vBool b →
         (removeContactExec env api id).deleted = b) ∧
       (d.get "deleted" = .vUndefined →
         (removeContactExec env api id).deleted = true) ∧
       (∀ s, d.get "id" = .vStr s → (removeContactExec env api id).id = s) ∧
       (nullish (d.get "id") = true → (removeContactExec env api id).id = id))) ∧
    ((removeContactExec env api id).success = false →
      ((removeContactExec env api id).deleted = false ∧
       (removeContactExec env api id).id = id)) := by
  constructor
  · intro d hkey hrem
    refine ⟨?_, ?_, ?_, ?_, ?_⟩
    · simp [removeContactExec, hkey, hrem]
    · intro b hb
      simp [removeContactExec, hkey, hrem, hb, nvl, nullish, truthy]
    · intro h
      simp [removeContactExec, hkey, hrem, h, nvl, nullish, truthy]
    · intro s hs
      simp [removeContactExec, hkey, hrem, hs, strOr, nvl, nullish, jstr]
    · intro h
      simp [removeContactExec, hkey, hrem, strOr, nvl, h, jstr]
  · intro hsucc
    by_cases hkey : hasResendKey env = true
    · cases hrem : api.contactsRemove (.vObj [("id", .vStr id)]) with
      | error m => constructor <;> simp [removeContactExec, hkey, hrem]
      | ok resp =>
        cases resp with
        | mk data err =>
          cases err with
          | some m => constructor <;> simp [removeContactExec, hkey, hrem]
          | none =>
            cases data with
            | some d =>
              exfalso
              simp [removeContactExec, hkey, hrem] at hsucc
            | none => constructor <;> simp [removeContactExec, hkey, hrem]
    · constructor <;> simp [removeContactExec, hkey]

/-- C10 witness: a success record with deleted true and id c1 is echoed,
and a structured SDK error leaves deleted false with the caller key. -/
theorem claim_C10_witness :
    (removeContactExec rsEnv0 (rsApiConst (.ok ⟨some c10Data, none⟩))
      "lookup-key").success = true ∧
    (removeContactExec rsEnv0 (rsApiConst (.ok ⟨some c10Data, none⟩))
      "lookup-key").deleted = true ∧
    (removeContactExec rsEnv0 (rsApiConst (.ok ⟨some c10Data, none⟩))
      "lookup-key").id = "c1" ∧
    ((removeContactExec rsEnv0 (rsApiConst (.ok ⟨none, some "boom"⟩))
      "lookup-key").deleted = false ∧
     (removeContactExec rsEnv0 (rsApiConst (.ok ⟨none, some "boom"⟩))
      "lookup-key").id = "lookup-key") :=
  ⟨((claim_C10_removeContact rsEnv0 (rsApiConst (.ok ⟨some c10Data, none⟩))
      "lookup-key").1 c10Data rfl rfl).1,
   ((claim_C10_removeContact rsEnv0 (rsApiConst (.ok ⟨some c10Data, none⟩))
      "lookup-key").1 c10Data rfl rfl).2.1 true rfl,
   ((claim_C10_removeContact rsEnv0 (rsApiConst (.ok ⟨some c10Data, none⟩))
      "lookup-key").1 c10Data rfl rfl).2.2.2.1 "c1" rfl,
   (claim_C10_removeContact rsEnv0 (rsApiConst (.ok ⟨none, some "boom"⟩))
      "lookup-key").2 rfl⟩

/-- C1 witness: the containment disjunction instantiated for listSites at
a concrete environment and oracle. -/
theorem claim_C1_witness :
    (listSitesExec wfEnv0 (wfApiConst (.vObj []))).1.error = none ∨
    ((listSitesExec wfEnv0 (wfApiConst (.vObj []))).1.sites = [] ∧
     (listSitesExec wfEnv0 (wfApiConst (.vObj []))).1.count = 0 ∧
     (listSitesExec wfEnv0 (wfApiConst (.vObj []))).1.error ≠ none) :=
  claim_C1_error_containment.1 wfEnv0 (wfApiConst (.vObj []))
